import Mathlib

/-!
Verification development for the sscp-host library (SSCPv2 host-side client).

Shallow embedding notes.
* C byte buffers are `List Nat`; every value stored through a `BYTE` lvalue is
  reduced `% 256`, and every fixed-size output buffer written by an external
  primitive is normalised to its declared length (`fixLen`), which is exactly
  the C contract of writing `n` bytes through a `BYTE*`.
* `DWORD` (32-bit unsigned) arithmetic is `Nat` with explicit `% 4294967296`
  at the operations where C wraps.
* The external collaborators that are not part of this repository's sources
  (AES/HMAC/RNG primitives, the serial port, the session-key derivation) are
  oracle parameters, mirroring their C signatures; a `FALSE`/failed return is
  `none`.
* `NULL` pointers for byte buffers are not representable: a context is always
  present, and an absent data buffer is the empty list (the C guard
  `data == NULL && size > 0 → SSCP_ERR_INVALID_PARAMETER` is therefore
  unreachable in the model and omitted).
-/

/-! ## Error codes (inc/sscp-errors.h) and protocol constants -/

def SSCP_SUCCESS : Int := 0
def SSCP_ERR_INVALID_PARAMETER : Int := -2
def SSCP_ERR_OUTPUT_BUFFER_OVERFLOW : Int := -4
def SSCP_ERR_COMMAND_TOO_LONG : Int := -5
def SSCP_ERR_RESPONSE_TOO_LONG : Int := -6
def SSCP_ERR_INTERNAL_FAILURE : Int := -8
def SSCP_ERR_COMM_RECV_STOPPED : Int := -18
def SSCP_ERR_COMM_RECV_MUTE : Int := -19
def SSCP_ERR_WRONG_RESPONSE_LENGTH : Int := -20
def SSCP_ERR_WRONG_RESPONSE_CRC : Int := -21
def SSCP_ERR_WRONG_RESPONSE_SIGNATURE : Int := -22
def SSCP_ERR_WRONG_RESPONSE_COUNTER : Int := -23
def SSCP_ERR_WRONG_RESPONSE_TYPE : Int := -24
def SSCP_ERR_WRONG_RESPONSE_COMMAND : Int := -25
def SSCP_ERR_WRONG_RESPONSE_FORMAT : Int := -26
def SSCP_ERR_UNSUPPORTED_RESPONSE_STATUS : Int := -30
def SSCP_ERR_UNSUPPORTED_RESPONSE_LENGTH : Int := -32
def SSCP_ERR_NFC_CARD_MUTE_OR_REMOVED : Int := -41
def SSCP_ERR_NFC_CARD_COMM_ERROR : Int := -42

def SSCP_PROTOCOL_AUTHENTICATE : Nat := 0x20
def SSCP_PROTOCOL_SECURE : Nat := 0x21

/-- Normalise a buffer written by an external primitive to exactly `n` bytes:
the C contract of filling an `n`-byte `BYTE` array. -/
def fixLen (n : Nat) (l : List Nat) : List Nat :=
  l.take n ++ List.replicate (n - l.length) 0

/-! ## CRC (src/sscp-host-exchange.c, SSCP_SCR16)

The C routine keeps the running CRC in a 16-bit register (a C `short`; the
embedding tracks the register as a natural number `< 65536`, the two's
complement bit pattern). One pass of the inner `for (j …)` loop: -/

/-- One inner-loop round of `SSCP_SCR16`: save `mix = crc & 0x8000`, shift the
register left (dropping into 16 bits), and xor the polynomial if `mix` was
non-zero. -/
def crcShiftOnce (crc : Nat) : Nat :=
  let mix := crc &&& 0x8000
  let c := (crc <<< 1) % 65536
  if mix ≠ 0 then c ^^^ 0x1021 else c

/-- One outer-loop iteration of `SSCP_SCR16`: xor the next byte into the high
half of the register, then run the inner loop eight times. -/
def crcByteStep (crc dbyte : Nat) : Nat :=
  crcShiftOnce^[8] (crc ^^^ ((dbyte % 256) <<< 8))

/-- Model of `SSCP_SCR16`: CRC over `part1` then `part2` starting from `0xFFFF`,
emitted as two bytes, high byte first (`pcrc[0] = crc >> 8; pcrc[1] = crc`). -/
def SSCP_SCR16 (part1 part2 : List Nat) : List Nat :=
  let crc := part2.foldl crcByteStep (part1.foldl crcByteStep 0xFFFF)
  [(crc >>> 8) % 256, crc % 256]

/-! Reference CRC, written from the specification's words: CRC-16/CCITT-FALSE,
initial value 0xFFFF, polynomial 0x1021, MSB-first, no reflection, no final
XOR. This is the one definition taken from the spec rather than the source,
for the refinement comparison of claim C3. -/

/-- One bit-round of the reference CRC: if the most significant bit of the
16-bit register is set, shift (within 16 bits) and xor the polynomial
`0x1021`, else just shift. -/
def crcSpecRound (c : Nat) : Nat :=
  if c.testBit 15 then ((c <<< 1) % 65536) ^^^ 0x1021 else (c <<< 1) % 65536

/-- Eight MSB-first bit-rounds of the reference CRC. -/
def crcSpecRounds : Nat → Nat → Nat
  | c, 0 => c
  | c, k + 1 => crcSpecRounds (crcSpecRound c) k

/-- Reference CRC-16/CCITT-FALSE of a byte sequence: start from `0xFFFF`,
xor each byte into the high half, run eight bit-rounds, no final XOR. -/
def crc16_ccitt_false (data : List Nat) : Nat :=
  data.foldl (fun c b => crcSpecRounds (c ^^^ ((b % 256) <<< 8)) 8) 0xFFFF

theorem crcShiftOnce_eq_round (c : Nat) : crcShiftOnce c = crcSpecRound c := by
  unfold crcShiftOnce crcSpecRound
  have h : c &&& 0x8000 = (c.testBit 15).toNat * 2 ^ 15 := by
    have := Nat.and_two_pow c 15
    norm_num at this ⊢
    exact this
  cases hb : c.testBit 15 <;> simp [h, hb]

theorem crcSpecRounds_eq_iterate (k c : Nat) :
    crcShiftOnce^[k] c = crcSpecRounds c k := by
  induction k generalizing c with
  | zero => rfl
  | succ n ih =>
      rw [Function.iterate_succ_apply, crcSpecRounds, crcShiftOnce_eq_round]
      exact ih _

theorem crcByteStep_eq_spec (c b : Nat) :
    crcByteStep c b = crcSpecRounds (c ^^^ ((b % 256) <<< 8)) 8 := by
  unfold crcByteStep
  exact crcSpecRounds_eq_iterate 8 _

/-- The source CRC routine computes exactly the reference CRC-16/CCITT-FALSE
of the concatenation of its two parts, and emits it big-endian. -/
theorem SCR16_eq_reference (part1 part2 : List Nat) :
    SSCP_SCR16 part1 part2 =
      [(crc16_ccitt_false (part1 ++ part2) >>> 8) % 256,
       crc16_ccitt_false (part1 ++ part2) % 256] := by
  have hf : crcByteStep = fun c b => crcSpecRounds (c ^^^ ((b % 256) <<< 8)) 8 := by
    funext c b
    exact crcByteStep_eq_spec c b
  simp only [SSCP_SCR16, crc16_ccitt_false, List.foldl_append, hf]

/-! ## Session context (src/sscp-host_i.h, struct _SSCP_CTX_ST)

Only the fields read or written by the modelled functions are carried; the
transport handle and guard-time state live in the serial/time layer that is
external to this embedding. -/

structure SSCP_CTX_ST where
  address : Nat
  counter : Nat
  sessionKeyCipherAB : List Nat
  sessionKeyCipherBA : List Nat
  sessionKeySignAB : List Nat
  sessionKeySignBA : List Nat
  statsWhenSession : Nat
  statsSessionCount : Nat
  statsErrorCount : Nat
deriving DecidableEq, Repr

/-! ## External crypto primitives (sscp-host-crypto, not part of src/)

`SSCP_HMAC`, `SSCP_Cipher`, `SSCP_Decipher` and `SSCP_GetRandom` are external
collaborators; a C `FALSE` return is `none`. Cipher and decipher operate in
place on a byte buffer, so their output has the input's length; HMAC writes
exactly 32 bytes; `GetRandom n` writes exactly `n` bytes. The `o…` wrappers
impose those C contracts on the oracle. -/

structure CryptoOracle where
  hmac : List Nat → List Nat → Option (List Nat)
  cipher : List Nat → List Nat → List Nat → Option (List Nat)
  decipher : List Nat → List Nat → List Nat → Option (List Nat)
  getRandom : Nat → Option (List Nat)

def oHMAC (co : CryptoOracle) (key msg : List Nat) : Option (List Nat) :=
  (co.hmac key msg).map (fun h => fixLen 32 (h.map (· % 256)))

def oCipher (co : CryptoOracle) (key iv buf : List Nat) : Option (List Nat) :=
  (co.cipher key iv buf).map (fun c => fixLen buf.length (c.map (· % 256)))

def oDecipher (co : CryptoOracle) (key iv buf : List Nat) : Option (List Nat) :=
  (co.decipher key iv buf).map (fun c => fixLen buf.length (c.map (· % 256)))

def oGetRandom (co : CryptoOracle) (n : Nat) : Option (List Nat) :=
  (co.getRandom n).map (fun r => fixLen n (r.map (· % 256)))

theorem fixLen_length (n : Nat) (l : List Nat) : (fixLen n l).length = n := by
  simp [fixLen, List.length_take]
  omega

/-! ## Framed codec (src/sscp-host-exchange.c, SSCP_ExchangeRaw)

The serial port is external; one call to `SSCP_ExchangeRaw` makes two
`SSCP_SerialSetTimeouts` calls, three `SSCP_SerialSend` calls and three
`SSCP_SerialRecv` calls, in this fixed order. The oracle carries the return
code of each call and, for the receives, the delivered bytes. -/

structure SerialOracle where
  setTimeoutsFirst : Int
  sendHeader : Int
  sendPayload : Int
  sendCrc : Int
  recvHeader : Int × List Nat
  setTimeoutsNext : Int
  recvPayload : Nat → Int × List Nat
  recvCrc : Int × List Nat

structure RawResult where
  rc : Int
  payload : List Nat
  sent : List Nat
deriving DecidableEq, Repr

/-- Upgrade applied to a receive failure once the 5 header bytes are already
in hand: `COMM_RECV_MUTE` becomes `COMM_RECV_STOPPED`, every other code is
returned unchanged. -/
def upgradeMute (e : Int) : Int :=
  if e = SSCP_ERR_COMM_RECV_MUTE then SSCP_ERR_COMM_RECV_STOPPED else e

/-- The 5-byte request header `SOF‖LEN(2,BE)‖ADDR‖PROTO`. -/
def SSCP_RawHeader (address protocol : Nat) (command : List Nat) : List Nat :=
  [0x02, (command.length >>> 8) % 256, command.length % 256,
   address % 256, protocol % 256]

/-- The full request frame: header, payload, then the CRC over
`LEN‖ADDR‖PROTO` and the payload (`SSCP_SCR16(&header[1], 4, command, …)`). -/
def SSCP_RawFrame (address protocol : Nat) (command : List Nat) : List Nat :=
  SSCP_RawHeader address protocol command ++ command.map (· % 256) ++
    SSCP_SCR16 ((SSCP_RawHeader address protocol command).drop 1)
      (command.map (· % 256))

/-- Final stage of the receive path: recompute the CRC over the received
header tail and payload and compare with the received CRC bytes. -/
def SSCP_RawCheckCrc (hdr5 p cb : List Nat) (frame : List Nat) : RawResult :=
  if SSCP_SCR16 (hdr5.drop 1) p ≠ cb then
    ⟨SSCP_ERR_WRONG_RESPONSE_CRC, [], frame⟩
  else ⟨SSCP_SUCCESS, p, frame⟩

/-- Receive the 2 CRC bytes (mute upgraded to stopped: header and payload are
already in hand), then check the CRC. -/
def SSCP_RawRecvCrc (io : SerialOracle) (hdr5 p : List Nat)
    (frame : List Nat) : RawResult :=
  if (io.recvCrc).1 ≠ 0 then ⟨upgradeMute (io.recvCrc).1, [], frame⟩
  else SSCP_RawCheckCrc hdr5 p (fixLen 2 ((io.recvCrc).2.map (· % 256))) frame

/-- Receive the declared number of payload bytes (mute upgraded to stopped:
the header is already in hand), then the CRC stage. -/
def SSCP_RawRecvBody (io : SerialOracle) (hdr5 : List Nat) (length : Nat)
    (frame : List Nat) : RawResult :=
  if (io.recvPayload length).1 ≠ 0 then
    ⟨upgradeMute (io.recvPayload length).1, [], frame⟩
  else
    SSCP_RawRecvCrc io hdr5
      (fixLen length ((io.recvPayload length).2.map (· % 256))) frame

/-- After the 5 header bytes are received: validate the SOF, extract the
declared length and bound it by `maxResponseSz`, switch to the inter-byte
timeout, then read payload and CRC. -/
def SSCP_RawRecvAfterHeader (io : SerialOracle) (hdr5 : List Nat)
    (maxResponseSz : Nat) (frame : List Nat) : RawResult :=
  if hdr5.getD 0 0 ≠ 0x02 then ⟨SSCP_ERR_WRONG_RESPONSE_COMMAND, [], frame⟩
  else if (((hdr5.getD 1 0) <<< 8) ||| hdr5.getD 2 0) > maxResponseSz then
    ⟨SSCP_ERR_RESPONSE_TOO_LONG, [], frame⟩
  else if io.setTimeoutsNext ≠ 0 then ⟨io.setTimeoutsNext, [], frame⟩
  else
    SSCP_RawRecvBody io hdr5 (((hdr5.getD 1 0) <<< 8) ||| hdr5.getD 2 0) frame

/-- Model of `SSCP_ExchangeRaw`: frame `SOF‖LEN(2,BE)‖ADDR‖PROTO‖payload‖CRC(2,BE)`,
send it, then receive and validate one response frame. `sent` is the request
frame the call transmits. -/
def SSCP_ExchangeRaw (io : SerialOracle) (address protocol : Nat)
    (command : List Nat) (maxResponseSz : Nat) : RawResult :=
  if command.length > 4096 then ⟨SSCP_ERR_COMMAND_TOO_LONG, [], []⟩
  else if io.setTimeoutsFirst ≠ 0 then ⟨io.setTimeoutsFirst, [], []⟩
  else if io.sendHeader ≠ 0 then
    ⟨io.sendHeader, [], SSCP_RawFrame address protocol command⟩
  else if io.sendPayload ≠ 0 then
    ⟨io.sendPayload, [], SSCP_RawFrame address protocol command⟩
  else if io.sendCrc ≠ 0 then
    ⟨io.sendCrc, [], SSCP_RawFrame address protocol command⟩
  else if (io.recvHeader).1 ≠ 0 then
    ⟨(io.recvHeader).1, [], SSCP_RawFrame address protocol command⟩
  else
    SSCP_RawRecvAfterHeader io (fixLen 5 ((io.recvHeader).2.map (· % 256)))
      maxResponseSz (SSCP_RawFrame address protocol command)

/-! ## Secure exchanger (src/sscp-host-exchange.c, SSCP_ExchangeEx)

`SSCP_ExchangeEx` is modelled as the composition of staged functions that
follow the C function's linear structure: build the encrypted command, run
the send/receive retry loop (or substitute the self-test response), and
parse and validate the decrypted response. The transport (`SSCP_ExchangeRaw`
with the serial port behind it) is an oracle `raw : attempt index → command
bytes → (rc, response bytes)`. `SSCP_MAX_TIMEOUT_RETRY` is defined in a
header that is not part of src/, so the bound is the parameter `maxRetry`. -/

def selftestPADD : List Nat := [0xBA, 0x40, 0x5E, 0xDD]

def selftestIV : List Nat :=
  [0x7C, 0x3D, 0xE3, 0xF3, 0xE1, 0x91, 0xD3, 0xCD,
   0x3A, 0x09, 0x3E, 0x64, 0x3B, 0xF0, 0x35, 0xCE]

/-- Canned 64-byte transport response substituted for the send/receive in
self-test mode. -/
def selftestExchangeResponse : List Nat :=
  [0xEE, 0x3F, 0x77, 0x22, 0x6E, 0x77, 0xEF, 0xF3, 0x05, 0x89, 0xBB, 0x40, 0xF1, 0xA1, 0x7C, 0x8E,
   0x6D, 0x7B, 0x5D, 0x89, 0xFB, 0x6D, 0x86, 0xF2, 0x52, 0x04, 0xFC, 0x4D, 0x31, 0x80, 0x0F, 0x17,
   0x7F, 0xED, 0xA6, 0x42, 0x00, 0x8F, 0x0A, 0x60, 0x37, 0x01, 0xC4, 0x34, 0xC8, 0x56, 0x9B, 0xA9,
   0xEC, 0x89, 0xEC, 0xA7, 0xB6, 0x33, 0xF3, 0x35, 0x77, 0xCE, 0xC2, 0x4A, 0x74, 0x85, 0x98, 0x5E]

/-- Live-mode padding appended to a buffer of length `n` to reach a multiple
of 16: nothing if already a multiple, else `0x80` followed by zero bytes. -/
def padLive (n : Nat) : List Nat :=
  if n % 16 = 0 then [] else 0x80 :: List.replicate (15 - n % 16) 0

/-- Self-test padding: the repeating sequence `BA 40 5E DD`. -/
def padSelfTest (n : Nat) : List Nat :=
  (List.range ((16 - n % 16) % 16)).map (fun i => selftestPADD.getD (i % 4) 0)

/-- The plaintext command before signature: counter (4, BE), command type,
command code (2, BE), data length + 1 (2, BE), reserved 0x00, then the data. -/
def SSCP_PlainCommand (counter commandType commandCode : Nat)
    (data : List Nat) : List Nat :=
  [(counter >>> 24) % 256, (counter >>> 16) % 256,
   (counter >>> 8) % 256, counter % 256,
   commandType % 256, (commandCode >>> 8) % 256, commandCode % 256,
   ((data.length + 1) >>> 8) % 256, (data.length + 1) % 256, 0x00] ++
  data.map (· % 256)

/-- Signed-and-padded plaintext: `plain ‖ HMAC ‖ padding`, padded to a
16-byte multiple (standard padding live, the `BA 40 5E DD` cycle in
self-test). -/
def SSCP_PaddedCommand (plain h : List Nat) (selftest : Bool) : List Nat :=
  plain ++ h ++ (if selftest then padSelfTest (plain ++ h).length
                 else padLive (plain ++ h).length)

/-- Build phase of `SSCP_ExchangeEx`: size check, plaintext, HMAC under
`sessionKeySignAB`, padding to a 16-byte multiple, AES-CBC encryption under
`sessionKeyCipherAB` with a fresh (or self-test) IV, and the IV appended
after the ciphertext. -/
def SSCP_BuildSecureCommand (ctx : SSCP_CTX_ST) (commandHeader : Nat)
    (commandData : List Nat) (co : CryptoOracle) (selftest : Bool) :
    Except Int (List Nat) :=
  if commandData.length > 4096 then .error SSCP_ERR_COMMAND_TOO_LONG
  else
    match oHMAC co ctx.sessionKeySignAB
        (SSCP_PlainCommand ctx.counter ((commandHeader >>> 16) % 256)
          (commandHeader % 65536) commandData) with
    | none => .error SSCP_ERR_INTERNAL_FAILURE
    | some h =>
      match (if selftest then some selftestIV else oGetRandom co 16) with
      | none => .error SSCP_ERR_INTERNAL_FAILURE
      | some iv =>
        match oCipher co ctx.sessionKeyCipherAB iv
            (SSCP_PaddedCommand
              (SSCP_PlainCommand ctx.counter ((commandHeader >>> 16) % 256)
                (commandHeader % 65536) commandData) h selftest) with
        | none => .error SSCP_ERR_INTERNAL_FAILURE
        | some enc => .ok (enc ++ iv)

structure LoopResult where
  rc : Int
  resp : List Nat
  attempts : Nat
  recovered : Bool
deriving DecidableEq, Repr

/-- The body of the retry `for` loop: call the transport, break on success
(noting a recovery when `retry > 0`), retry only on `COMM_RECV_MUTE` or
`COMM_RECV_STOPPED`, break immediately on any other failure. `last` carries
the `rc`/response of the previous iteration, returned when the loop exhausts
its attempts; the initial `last` models C's uninitialised `rc`, reachable
only when the retry bound is zero. -/
def retryGo (raw : Nat → List Nat → Int × List Nat) (cmd : List Nat) :
    Int × List Nat → Nat → Nat → LoopResult
  | last, retry, 0 => ⟨last.1, last.2, retry, false⟩
  | _, retry, fuel + 1 =>
    let r := raw retry cmd
    if r.1 = SSCP_SUCCESS then ⟨r.1, r.2, retry + 1, decide (0 < retry)⟩
    else if r.1 = SSCP_ERR_COMM_RECV_MUTE ∨ r.1 = SSCP_ERR_COMM_RECV_STOPPED then
      retryGo raw cmd r (retry + 1) fuel
    else ⟨r.1, r.2, retry + 1, false⟩

/-- The retry loop of `SSCP_ExchangeEx`, entered with `retry = 0` and at most
`maxRetry` (`SSCP_MAX_TIMEOUT_RETRY`) transport attempts. -/
def SSCP_RetryLoop (raw : Nat → List Nat → Int × List Nat) (cmd : List Nat)
    (maxRetry : Nat) : LoopResult :=
  retryGo raw cmd (SSCP_ERR_INTERNAL_FAILURE, []) 0 maxRetry

/-- Big-endian 32-bit decode of the first four response bytes, as in the C
shift/or sequence. -/
def decodeBE4 (l : List Nat) : Nat :=
  ((((l.getD 0 0) <<< 8 ||| l.getD 1 0) <<< 8 ||| l.getD 2 0) <<< 8) |||
    l.getD 3 0

structure RespResult where
  rc : Int
  ctx : SSCP_CTX_ST
  act : Option Nat
  data : List Nat
deriving DecidableEq, Repr

/-- Validation chain after the counter has been checked and updated into
`ctx2` and the opcode echo verified: declared length envelope against the
decrypted body size, HMAC under `sessionKeySignBA` over the first
`8 + t2 + 2` bytes, status type echo, output copy with overflow check, and
propagation of a nonzero device status byte as the return code. `t2` is the
declared response-data length. -/
def SSCP_ProcessChecks (ctx2 : SSCP_CTX_ST)
    (commandType maxResponseDataSz bodySz t2 : Nat) (co : CryptoOracle)
    (r : List Nat) : RespResult :=
  if bodySz < 4 + 2 + 2 + t2 + 2 + 32 ∨ bodySz > 4 + 2 + 2 + t2 + 2 + 32 + 16
  then ⟨SSCP_ERR_WRONG_RESPONSE_FORMAT, ctx2, none, []⟩
  else
    match oHMAC co ctx2.sessionKeySignBA (r.take (8 + t2 + 2)) with
    | none => ⟨SSCP_ERR_INTERNAL_FAILURE, ctx2, none, []⟩
    | some hm =>
      if hm ≠ (r.drop (8 + t2 + 2)).take 32 then
        ⟨SSCP_ERR_WRONG_RESPONSE_SIGNATURE, ctx2, none, []⟩
      else if r.getD (8 + t2 + 2 - 2) 0 ≠ commandType then
        ⟨SSCP_ERR_WRONG_RESPONSE_TYPE, ctx2, none, []⟩
      else if t2 > 0 ∧ t2 > maxResponseDataSz then
        ⟨SSCP_ERR_OUTPUT_BUFFER_OVERFLOW, ctx2, some t2, []⟩
      else if r.getD (8 + t2 + 2 - 1) 0 ≠ 0 then
        ⟨Int.ofNat (r.getD (8 + t2 + 2 - 1) 0), ctx2, some t2,
         (r.drop 8).take t2⟩
      else ⟨SSCP_SUCCESS, ctx2, some t2, (r.drop 8).take t2⟩

/-- Counter and opcode validation on the decrypted response `r`: the decoded
counter must be strictly greater than the context counter (else
`WRONG_RESPONSE_COUNTER`, context untouched); when it is, the context
counter becomes `decoded + 1` (32-bit) before the opcode echo and all later
checks. -/
def SSCP_ProcessDecrypted (ctx : SSCP_CTX_ST)
    (commandType commandCode maxResponseDataSz bodySz : Nat)
    (co : CryptoOracle) (r : List Nat) : RespResult :=
  if decodeBE4 r > ctx.counter then
    if r.getD 4 0 ≠ (commandCode >>> 8) % 256 ∨
        r.getD 5 0 ≠ commandCode % 256 then
      ⟨SSCP_ERR_WRONG_RESPONSE_COMMAND,
       { ctx with counter := (decodeBE4 r + 1) % 4294967296 }, none, []⟩
    else
      SSCP_ProcessChecks
        { ctx with counter := (decodeBE4 r + 1) % 4294967296 }
        commandType maxResponseDataSz bodySz
        (((r.getD 6 0) <<< 8) ||| r.getD 7 0) co r
  else ⟨SSCP_ERR_WRONG_RESPONSE_COUNTER, ctx, none, []⟩

/-- Response phase of `SSCP_ExchangeEx`: length envelope (at least 16 bytes
and a multiple of 16), split of the trailing 16-byte IV, decryption under
`sessionKeyCipherBA`, then the validation chain. -/
def SSCP_ProcessSecureResponse (ctx : SSCP_CTX_ST)
    (commandType commandCode maxResponseDataSz : Nat) (co : CryptoOracle)
    (response : List Nat) : RespResult :=
  if response.length < 16 ∨ response.length % 16 ≠ 0 then
    ⟨SSCP_ERR_WRONG_RESPONSE_LENGTH, ctx, none, []⟩
  else
    match oDecipher co ctx.sessionKeyCipherBA
        ((response.map (· % 256)).drop (response.length - 16))
        ((response.map (· % 256)).take (response.length - 16)) with
    | none => ⟨SSCP_ERR_INTERNAL_FAILURE, ctx, none, []⟩
    | some r =>
      SSCP_ProcessDecrypted ctx commandType commandCode maxResponseDataSz
        (response.length - 16) co r

structure ExchangeResult where
  rc : Int
  ctx : SSCP_CTX_ST
  act : Option Nat
  data : List Nat
  attempts : Nat
  sent : List (List Nat)
deriving DecidableEq, Repr

/-- Attach the transport attempt count and sent-frame trace to a response
phase result. -/
def withTransport (pr : RespResult) (attempts : Nat)
    (sent : List (List Nat)) : ExchangeResult :=
  ⟨pr.rc, pr.ctx, pr.act, pr.data, attempts, sent⟩

/-- The context after the retry loop: `stats.errorCount` is incremented
exactly when the loop recovered (success after at least one timeout). -/
def SSCP_CtxAfterLoop (ctx : SSCP_CTX_ST) (lr : LoopResult) : SSCP_CTX_ST :=
  if lr.recovered then
    { ctx with statsErrorCount := (ctx.statsErrorCount + 1) % 4294967296 }
  else ctx

/-- Live-mode tail of `SSCP_ExchangeEx` after the retry loop: a transport
failure is returned as is; a transport success goes to the response phase. -/
def SSCP_ExchangeAfterLoop (ctx : SSCP_CTX_ST)
    (commandHeader maxResponseDataSz : Nat) (co : CryptoOracle)
    (cmd : List Nat) (lr : LoopResult) : ExchangeResult :=
  if lr.rc ≠ 0 then
    ⟨lr.rc, SSCP_CtxAfterLoop ctx lr, none, [], lr.attempts,
     List.replicate lr.attempts cmd⟩
  else
    withTransport
      (SSCP_ProcessSecureResponse (SSCP_CtxAfterLoop ctx lr)
        ((commandHeader >>> 16) % 256) (commandHeader % 65536)
        maxResponseDataSz co lr.resp)
      lr.attempts (List.replicate lr.attempts cmd)

/-- Model of `SSCP_ExchangeEx`: build the encrypted command, exchange it (the retry
loop in live mode, the canned response in self-test mode), then validate the
response. `sent` is the list of command byte strings handed to the framed
codec, one entry per transport attempt. -/
def SSCP_ExchangeEx (ctx : SSCP_CTX_ST) (commandHeader : Nat)
    (commandData : List Nat) (maxResponseDataSz : Nat) (co : CryptoOracle)
    (raw : Nat → List Nat → Int × List Nat) (maxRetry : Nat)
    (selftest : Bool) : ExchangeResult :=
  match SSCP_BuildSecureCommand ctx commandHeader commandData co selftest with
  | .error e => ⟨e, ctx, none, [], 0, []⟩
  | .ok cmd =>
    if selftest then
      withTransport
        (SSCP_ProcessSecureResponse ctx ((commandHeader >>> 16) % 256)
          (commandHeader % 65536) maxResponseDataSz co
          selftestExchangeResponse) 0 []
    else
      SSCP_ExchangeAfterLoop ctx commandHeader maxResponseDataSz co cmd
        (SSCP_RetryLoop raw cmd maxRetry)

/-- Model of `SSCP_Exchange` (live mode wrapper). -/
def SSCP_Exchange (ctx : SSCP_CTX_ST) (commandHeader : Nat)
    (commandData : List Nat) (maxResponseDataSz : Nat) (co : CryptoOracle)
    (raw : Nat → List Nat → Int × List Nat) (maxRetry : Nat) :
    ExchangeResult :=
  SSCP_ExchangeEx ctx commandHeader commandData maxResponseDataSz co raw
    maxRetry false

/-- Model of `SSCP_Exchange_SelfTest` (self-test wrapper). -/
def SSCP_Exchange_SelfTest (ctx : SSCP_CTX_ST) (commandHeader : Nat)
    (commandData : List Nat) (maxResponseDataSz : Nat) (co : CryptoOracle)
    (raw : Nat → List Nat → Int × List Nat) (maxRetry : Nat) :
    ExchangeResult :=
  SSCP_ExchangeEx ctx commandHeader commandData maxResponseDataSz co raw
    maxRetry true

/-! ## Authenticator (src/sscp-host-functions.c, SSCP_Authenticate)

The two transport round-trips go through `SSCP_ExchangeRaw` over
`PROTO = 0x20`; each is an oracle `command bytes → (rc, response bytes)`.
`SSCP_ComputeSessionKeys` lives in the external crypto module and is the
oracle `deriveKeys (K, RndA, RndB) → four 16-byte keys` (`none` = C
`FALSE`). The 256-byte zero-initialised stack response buffer is modelled by
normalising the received bytes with `fixLen 256`, so reads beyond the
received length see zeros, as in C. -/

def SSCP_DEFAULT_AUTH_KEY : List Nat :=
  [0xE7, 0x4A, 0x54, 0x0F, 0xA0, 0x7C, 0x4D, 0xB1,
   0xB4, 0x64, 0x21, 0x12, 0x6D, 0xF7, 0xAD, 0x36]

/-- Fixed `RndA` substituted for the RNG in self-test mode. -/
def selftestRndA : List Nat :=
  [0x75, 0xCC, 0xF7, 0xB1, 0xF7, 0xFE, 0xA6, 0xF7,
   0x58, 0x71, 0xFC, 0xF6, 0xDC, 0x75, 0x59, 0x23]

/-- Canned 72-byte round-1 response (`B‖A‖RndA'‖RndB‖hB`) used in self-test
mode. -/
def authRound1Response : List Nat :=
  [0x53, 0x77, 0x07, 0xAD, 0x48, 0x6F, 0x07, 0xAD, 0x75, 0xCC, 0xF7, 0xB1, 0xF7, 0xFE, 0xA6, 0xF7,
   0x58, 0x71, 0xFC, 0xF6, 0xDC, 0x75, 0x59, 0x23, 0xC8, 0xEE, 0x7C, 0x37, 0x5C, 0x21, 0xEA, 0xC5,
   0x1B, 0xD9, 0x7C, 0x51, 0xC6, 0x9F, 0x39, 0x5B, 0x69, 0xF6, 0x61, 0x77, 0x07, 0xD9, 0x44, 0x29,
   0x40, 0xC3, 0x9B, 0xEB, 0xFA, 0x0B, 0x44, 0x59, 0xCE, 0xBF, 0x6C, 0xD5, 0xE6, 0x10, 0xEA, 0x1F,
   0xF4, 0x4B, 0x34, 0x1E, 0x29, 0x16, 0x54, 0xA9]

/-- Canned round-2 response (an ACK frame, not parsed) used in self-test
mode. -/
def authRound2Response : List Nat := [0x00, 0x00, 0x00, 0x00, 0x00, 0x08]

/-- Terminal stage of `SSCP_Authenticate`: derive the four session keys from
`(K, RndA, RndB)` and install them, reset the counter to 1, bump the session
count and stamp the session time. -/
def SSCP_AuthInstall (ctx : SSCP_CTX_ST) (key rndA rndB : List Nat)
    (deriveKeys : List Nat → List Nat → List Nat →
      Option (List Nat × List Nat × List Nat × List Nat))
    (now : Nat) : Int × SSCP_CTX_ST :=
  match deriveKeys key rndA rndB with
  | none => (SSCP_ERR_INTERNAL_FAILURE, ctx)
  | some ks =>
    (SSCP_SUCCESS,
     { ctx with
       sessionKeyCipherAB := ks.1
       sessionKeyCipherBA := ks.2.1
       sessionKeySignAB := ks.2.2.1
       sessionKeySignBA := ks.2.2.2
       counter := 1
       statsSessionCount := (ctx.statsSessionCount + 1) % 4294967296
       statsWhenSession := now })

/-- Round-2 tail: `r2` is the transport result of sending `A‖RndB‖hA`; its
body (an ACK) is not parsed, only its return code is checked. -/
def SSCP_AuthWithR2 (ctx : SSCP_CTX_ST) (key rndA rndB : List Nat)
    (deriveKeys : List Nat → List Nat → List Nat →
      Option (List Nat × List Nat × List Nat × List Nat))
    (now : Nat) (r2 : Int × List Nat) : Int × SSCP_CTX_ST :=
  if r2.1 ≠ 0 then (r2.1, ctx)
  else SSCP_AuthInstall ctx key rndA rndB deriveKeys now

/-- Round 2 of `SSCP_Authenticate`: compute `hA = HMAC(K, A‖RndB)`, send
`A‖RndB‖hA` (in self-test the canned ACK stands in for the transport). -/
def SSCP_AuthRound2 (ctx : SSCP_CTX_ST) (key rndA A rndB : List Nat)
    (co : CryptoOracle) (raw2 : List Nat → Int × List Nat)
    (deriveKeys : List Nat → List Nat → List Nat →
      Option (List Nat × List Nat × List Nat × List Nat))
    (selftest : Bool) (now : Nat) : Int × SSCP_CTX_ST :=
  match oHMAC co key (A ++ rndB) with
  | none => (SSCP_ERR_INTERNAL_FAILURE, ctx)
  | some hA =>
    SSCP_AuthWithR2 ctx key rndA rndB deriveKeys now
      (if selftest then ((0 : Int), authRound2Response)
       else raw2 (A ++ rndB ++ hA))

/-- Verification of the round-1 response: `buf` is the 256-byte
zero-extended response buffer; the recomputed `HMAC(K, first 40 bytes)` must
equal the 32 bytes at offset 40 (`hB`), else `WRONG_RESPONSE_SIGNATURE` with
the context untouched. On success, `A = buf[4..8)` and `RndB = buf[24..40)`
go to round 2. -/
def SSCP_AuthFinish (ctx : SSCP_CTX_ST) (key rndA : List Nat)
    (co : CryptoOracle) (raw2 : List Nat → Int × List Nat)
    (deriveKeys : List Nat → List Nat → List Nat →
      Option (List Nat × List Nat × List Nat × List Nat))
    (selftest : Bool) (now : Nat) (buf : List Nat) : Int × SSCP_CTX_ST :=
  match oHMAC co key (buf.take 40) with
  | none => (SSCP_ERR_INTERNAL_FAILURE, ctx)
  | some hB =>
    if hB ≠ (buf.drop 40).take 32 then (SSCP_ERR_WRONG_RESPONSE_SIGNATURE, ctx)
    else
      SSCP_AuthRound2 ctx key rndA ((buf.drop 4).take 4) ((buf.drop 24).take 16)
        co raw2 deriveKeys selftest now

/-- Round-1 tail: `r1` is the transport result of sending `00 00‖RndA`; on
success the response is widened to the 256-byte zeroed stack buffer. -/
def SSCP_AuthWithR1 (ctx : SSCP_CTX_ST) (key rndA : List Nat)
    (co : CryptoOracle) (raw2 : List Nat → Int × List Nat)
    (deriveKeys : List Nat → List Nat → List Nat →
      Option (List Nat × List Nat × List Nat × List Nat))
    (selftest : Bool) (now : Nat) (r1 : Int × List Nat) : Int × SSCP_CTX_ST :=
  if r1.1 ≠ 0 then (r1.1, ctx)
  else
    SSCP_AuthFinish ctx key rndA co raw2 deriveKeys selftest now
      (fixLen 256 (r1.2.map (· % 256)))

/-- Model of `SSCP_Authenticate`: round 1 sends `00 00‖RndA` and checks the `hB`
signature of the response; round 2 sends `A‖RndB‖hA`; on success the session
keys are derived from `(K, RndA, RndB)` and installed, the counter is reset
to 1 and the session statistics are stamped. `K` is the caller's key, or the
default transport key when the caller passes `none` (C `NULL`). `now` is the
value `time(NULL)` would return. -/
def SSCP_Authenticate (ctx : SSCP_CTX_ST) (authKeyValue : Option (List Nat))
    (co : CryptoOracle) (raw1 raw2 : List Nat → Int × List Nat)
    (deriveKeys : List Nat → List Nat → List Nat →
      Option (List Nat × List Nat × List Nat × List Nat))
    (selftest : Bool) (now : Nat) : Int × SSCP_CTX_ST :=
  match (if selftest then some selftestRndA else oGetRandom co 16) with
  | none => (SSCP_ERR_INTERNAL_FAILURE, ctx)
  | some rndA =>
    SSCP_AuthWithR1 ctx ((authKeyValue.getD SSCP_DEFAULT_AUTH_KEY).map (· % 256))
      rndA co raw2 deriveKeys selftest now
      (if selftest then ((0 : Int), authRound1Response)
       else raw1 ([0x00, 0x00] ++ rndA))

/-! ## APDU transceive wrapper (src/sscp-host-functions.c, SSCP_TransceiveNFC)

The secure exchange it performs (`SSCP_Exchange` with command
`SSCP_CMD_TRANSCEIVE_APDU`) is the oracle `exchange : command bytes →
(rc, secure response data)`. The wrapper prepends the reserved `0x00` byte
to the APDU. (The C code allocates `commandApduSz` bytes for this
`1 + commandApduSz`-byte buffer — a heap overflow; memory-safety is outside
this byte-level model.) `act` is the value stored through
`actResponseApduSz`. -/

structure NfcResult where
  rc : Int
  apdu : List Nat
  act : Option Nat
deriving DecidableEq, Repr

/-- Interpretation of the secure response delivered to `SSCP_TransceiveNFC`:
the first byte is a status (`0x00` OK — copy the rest out, subject to the
caller's buffer size; `0x01` card mute/removed; `0x02` card communication
error; anything else unsupported). -/
def SSCP_TransceiveParse (respData : List Nat) (maxResponseApduSz : Nat) :
    NfcResult :=
  if respData.length < 1 then ⟨SSCP_ERR_WRONG_RESPONSE_LENGTH, [], some 0⟩
  else
    match respData.getD 0 0 with
    | 0 =>
      if respData.length - 1 > maxResponseApduSz then
        ⟨SSCP_ERR_OUTPUT_BUFFER_OVERFLOW, [], some (respData.length - 1)⟩
      else ⟨SSCP_SUCCESS, respData.drop 1, some (respData.length - 1)⟩
    | 1 => ⟨SSCP_ERR_NFC_CARD_MUTE_OR_REMOVED, [], some 0⟩
    | 2 => ⟨SSCP_ERR_NFC_CARD_COMM_ERROR, [], some 0⟩
    | _ => ⟨SSCP_ERR_UNSUPPORTED_RESPONSE_STATUS, [], some 0⟩

/-- Tail of `SSCP_TransceiveNFC` once the secure exchange has returned. -/
def SSCP_TransceiveWithResult (r : Int × List Nat)
    (maxResponseApduSz : Nat) : NfcResult :=
  if r.1 ≠ 0 then ⟨r.1, [], some 0⟩
  else SSCP_TransceiveParse (r.2.map (· % 256)) maxResponseApduSz

def SSCP_TransceiveNFC (exchange : List Nat → Int × List Nat)
    (commandApdu : List Nat) (maxResponseApduSz : Nat) : NfcResult :=
  SSCP_TransceiveWithResult (exchange (0x00 :: commandApdu.map (· % 256)))
    maxResponseApduSz

/-! ## Properties of the retry loop -/

theorem retryGo_attempts_ge (raw : Nat → List Nat → Int × List Nat)
    (cmd : List Nat) :
    ∀ (fuel retry : Nat) (last : Int × List Nat),
      retry ≤ (retryGo raw cmd last retry fuel).attempts := by
  intro fuel
  induction fuel with
  | zero => intro retry last; simp [retryGo]
  | succ n ih =>
      intro retry last
      by_cases h1 : (raw retry cmd).1 = SSCP_SUCCESS
      · simp [retryGo, h1]
      · by_cases h2 : (raw retry cmd).1 = SSCP_ERR_COMM_RECV_MUTE ∨
            (raw retry cmd).1 = SSCP_ERR_COMM_RECV_STOPPED
        · simp only [retryGo, h1, h2, if_true, if_false]
          exact le_trans (by omega) (ih (retry + 1) _)
        · simp [retryGo, h1, h2]

theorem retryGo_attempts_le (raw : Nat → List Nat → Int × List Nat)
    (cmd : List Nat) :
    ∀ (fuel retry : Nat) (last : Int × List Nat),
      (retryGo raw cmd last retry fuel).attempts ≤ retry + fuel := by
  intro fuel
  induction fuel with
  | zero => intro retry last; simp [retryGo]
  | succ n ih =>
      intro retry last
      by_cases h1 : (raw retry cmd).1 = SSCP_SUCCESS
      · simp [retryGo, h1]
      · by_cases h2 : (raw retry cmd).1 = SSCP_ERR_COMM_RECV_MUTE ∨
            (raw retry cmd).1 = SSCP_ERR_COMM_RECV_STOPPED
        · simp only [retryGo, h1, h2, if_true, if_false]
          exact le_trans (ih (retry + 1) _) (by omega)
        · simp [retryGo, h1, h2]

theorem retryGo_timeouts (raw : Nat → List Nat → Int × List Nat)
    (cmd : List Nat) :
    ∀ (fuel retry : Nat) (last : Int × List Nat) (i : Nat), retry ≤ i →
      i + 1 < (retryGo raw cmd last retry fuel).attempts →
      (raw i cmd).1 = SSCP_ERR_COMM_RECV_MUTE ∨
        (raw i cmd).1 = SSCP_ERR_COMM_RECV_STOPPED := by
  intro fuel
  induction fuel with
  | zero =>
      intro retry last i hle hlt
      simp [retryGo] at hlt
      omega
  | succ n ih =>
      intro retry last i hle hlt
      by_cases h1 : (raw retry cmd).1 = SSCP_SUCCESS
      · simp [retryGo, h1] at hlt
        omega
      · by_cases h2 : (raw retry cmd).1 = SSCP_ERR_COMM_RECV_MUTE ∨
            (raw retry cmd).1 = SSCP_ERR_COMM_RECV_STOPPED
        · simp only [retryGo, h1, h2, if_true, if_false] at hlt
          rcases Nat.eq_or_lt_of_le hle with heq | hgt
          · subst heq
            exact h2
          · exact ih (retry + 1) _ i hgt hlt
        · simp [retryGo, h1, h2] at hlt
          omega

theorem retryGo_recovered (raw : Nat → List Nat → Int × List Nat)
    (cmd : List Nat) :
    ∀ (fuel retry : Nat) (last : Int × List Nat), last.1 ≠ 0 →
      ((retryGo raw cmd last retry fuel).recovered = true ↔
        ((retryGo raw cmd last retry fuel).rc = 0 ∧
          1 < (retryGo raw cmd last retry fuel).attempts)) := by
  intro fuel
  induction fuel with
  | zero =>
      intro retry last hlast
      simp [retryGo]
      intro h
      exact absurd h hlast
  | succ n ih =>
      intro retry last hlast
      by_cases h1 : (raw retry cmd).1 = SSCP_SUCCESS
      · simp only [SSCP_SUCCESS] at h1
        simp [retryGo, SSCP_SUCCESS, h1]
      · by_cases h2 : (raw retry cmd).1 = SSCP_ERR_COMM_RECV_MUTE ∨
            (raw retry cmd).1 = SSCP_ERR_COMM_RECV_STOPPED
        · simp only [retryGo, h1, h2, if_true, if_false]
          refine ih (retry + 1) _ ?_
          rcases h2 with h | h <;> rw [h] <;> decide
        · simp only [SSCP_SUCCESS] at h1
          simp [retryGo, SSCP_SUCCESS, h1, h2]

/-! ## The response phase leaves everything but the counter unchanged -/

theorem checks_ctx (ctx2 : SSCP_CTX_ST)
    (commandType maxResponseDataSz bodySz t2 : Nat) (co : CryptoOracle)
    (r : List Nat) :
    (SSCP_ProcessChecks ctx2 commandType maxResponseDataSz bodySz t2 co
        r).ctx = ctx2 := by
  unfold SSCP_ProcessChecks
  split
  · rfl
  · split
    · rfl
    · split
      · rfl
      · split
        · rfl
        · split
          · rfl
          · split
            · rfl
            · rfl

theorem process_ctx_shape (ctx : SSCP_CTX_ST)
    (commandType commandCode maxResponseDataSz : Nat) (co : CryptoOracle)
    (response : List Nat) :
    (SSCP_ProcessSecureResponse ctx commandType commandCode maxResponseDataSz
        co response).ctx = ctx ∨
    ∃ c, (SSCP_ProcessSecureResponse ctx commandType commandCode
        maxResponseDataSz co response).ctx = { ctx with counter := c } := by
  unfold SSCP_ProcessSecureResponse
  split
  · exact Or.inl rfl
  · split
    · exact Or.inl rfl
    · unfold SSCP_ProcessDecrypted
      split
      · split
        · exact Or.inr ⟨_, rfl⟩
        · rw [checks_ctx]
          exact Or.inr ⟨_, rfl⟩
      · exact Or.inl rfl

theorem process_errorCount (ctx : SSCP_CTX_ST)
    (commandType commandCode maxResponseDataSz : Nat) (co : CryptoOracle)
    (response : List Nat) :
    (SSCP_ProcessSecureResponse ctx commandType commandCode maxResponseDataSz
        co response).ctx.statsErrorCount = ctx.statsErrorCount := by
  rcases process_ctx_shape ctx commandType commandCode maxResponseDataSz co
    response with h | ⟨c, h⟩ <;> rw [h]

/-! ## Claim theorems -/

/-- C3: For every address byte, protocol byte, and payload of length at most
4096, the CRC computed by `SSCP_SCR16` over the four header bytes
`LEN(2,BE)‖ADDR‖PROTO` concatenated with the payload equals the reference
CRC-16/CCITT-FALSE (init 0xFFFF, polynomial 0x1021, MSB-first, no
reflection, no final XOR), emitted big-endian (high byte first); and on
receive, a frame whose trailing two CRC bytes differ from the CRC recomputed
over the received header tail and payload is rejected by `SSCP_ExchangeRaw`
with `WRONG_RESPONSE_CRC`. -/
theorem C3_crc_ccitt_false (address protocol : Nat) (payload : List Nat)
    (hlen : payload.length ≤ 4096)
    (io : SerialOracle) (raddress rprotocol maxResponseSz : Nat)
    (command : List Nat) (len : Nat)
    (hcl : ¬ command.length > 4096)
    (ht1 : io.setTimeoutsFirst = 0) (hs1 : io.sendHeader = 0)
    (hs2 : io.sendPayload = 0) (hs3 : io.sendCrc = 0)
    (hrh : (io.recvHeader).1 = 0)
    (hsof : (fixLen 5 ((io.recvHeader).2.map (· % 256))).getD 0 0 = 0x02)
    (hlen2 : (((fixLen 5 ((io.recvHeader).2.map (· % 256))).getD 1 0) <<< 8) |||
      (fixLen 5 ((io.recvHeader).2.map (· % 256))).getD 2 0 = len)
    (hmax : ¬ len > maxResponseSz)
    (ht2 : io.setTimeoutsNext = 0)
    (hrp : (io.recvPayload len).1 = 0) (hrc : (io.recvCrc).1 = 0)
    (hne : SSCP_SCR16 ((fixLen 5 ((io.recvHeader).2.map (· % 256))).drop 1)
        (fixLen len ((io.recvPayload len).2.map (· % 256))) ≠
      fixLen 2 ((io.recvCrc).2.map (· % 256))) :
    SSCP_SCR16 ((SSCP_RawHeader address protocol payload).drop 1)
        (payload.map (· % 256)) =
      [(crc16_ccitt_false ((SSCP_RawHeader address protocol payload).drop 1 ++
          payload.map (· % 256)) >>> 8) % 256,
       crc16_ccitt_false ((SSCP_RawHeader address protocol payload).drop 1 ++
          payload.map (· % 256)) % 256] ∧
    (SSCP_ExchangeRaw io raddress rprotocol command maxResponseSz).rc =
      SSCP_ERR_WRONG_RESPONSE_CRC := by
  constructor
  · exact SCR16_eq_reference _ _
  · simp only [SSCP_ExchangeRaw, SSCP_RawRecvAfterHeader, SSCP_RawRecvBody,
      SSCP_RawRecvCrc, SSCP_RawCheckCrc, hcl, ht1, hs1, hs2, hs3, hrh, hsof,
      hlen2, hmax, ht2, hrp, hrc, hne, if_true, if_false, ne_eq,
      not_true_eq_false, not_false_eq_true, ite_false, ite_true]

/-- Serial oracle delivering a well-formed 1-byte-payload frame whose two
trailing CRC bytes are wrong. -/
def ioBadCrcW : SerialOracle :=
  { setTimeoutsFirst := 0, sendHeader := 0, sendPayload := 0, sendCrc := 0
    recvHeader := (0, [0x02, 0x00, 0x01, 0x00, 0x21]), setTimeoutsNext := 0
    recvPayload := fun _ => (0, [0xAA]), recvCrc := (0, [0x00, 0x00]) }

set_option maxRecDepth 8000 in
theorem C3_crc_ccitt_false_witness :
    SSCP_SCR16 ((SSCP_RawHeader 0x00 0x21 [0x01, 0x02, 0x03]).drop 1)
        ([0x01, 0x02, 0x03].map (· % 256)) =
      [(crc16_ccitt_false ((SSCP_RawHeader 0x00 0x21 [0x01, 0x02, 0x03]).drop 1 ++
          [0x01, 0x02, 0x03].map (· % 256)) >>> 8) % 256,
       crc16_ccitt_false ((SSCP_RawHeader 0x00 0x21 [0x01, 0x02, 0x03]).drop 1 ++
          [0x01, 0x02, 0x03].map (· % 256)) % 256] ∧
    (SSCP_ExchangeRaw ioBadCrcW 0x00 0x21 [] 100).rc =
      SSCP_ERR_WRONG_RESPONSE_CRC :=
  C3_crc_ccitt_false 0x00 0x21 [0x01, 0x02, 0x03] (by decide) ioBadCrcW 0x00
    0x21 100 [] 1 (by decide) (by decide) (by decide) (by decide) (by decide)
    (by decide) (by decide) (by decide) (by decide) (by decide) (by decide)
    (by decide) (by decide)

/-- C6: In `SSCP_ExchangeRaw`, once the 5 header bytes have been received
(and validated, with the inter-byte timeout set), a receive failure of kind
`COMM_RECV_MUTE` while reading the payload bytes or the 2 CRC bytes is
returned as `COMM_RECV_STOPPED`; receive failures of any other kind are
returned unchanged. -/
theorem C6_mute_upgraded_after_header (io : SerialOracle)
    (address protocol maxResponseSz : Nat) (command : List Nat) (len : Nat)
    (hcl : ¬ command.length > 4096)
    (ht1 : io.setTimeoutsFirst = 0) (hs1 : io.sendHeader = 0)
    (hs2 : io.sendPayload = 0) (hs3 : io.sendCrc = 0)
    (hrh : (io.recvHeader).1 = 0)
    (hsof : (fixLen 5 ((io.recvHeader).2.map (· % 256))).getD 0 0 = 0x02)
    (hlen2 : (((fixLen 5 ((io.recvHeader).2.map (· % 256))).getD 1 0) <<< 8) |||
      (fixLen 5 ((io.recvHeader).2.map (· % 256))).getD 2 0 = len)
    (hmax : ¬ len > maxResponseSz)
    (ht2 : io.setTimeoutsNext = 0) :
    ((io.recvPayload len).1 ≠ 0 →
      (SSCP_ExchangeRaw io address protocol command maxResponseSz).rc =
        (if (io.recvPayload len).1 = SSCP_ERR_COMM_RECV_MUTE then
          SSCP_ERR_COMM_RECV_STOPPED else (io.recvPayload len).1)) ∧
    ((io.recvPayload len).1 = 0 → (io.recvCrc).1 ≠ 0 →
      (SSCP_ExchangeRaw io address protocol command maxResponseSz).rc =
        (if (io.recvCrc).1 = SSCP_ERR_COMM_RECV_MUTE then
          SSCP_ERR_COMM_RECV_STOPPED else (io.recvCrc).1)) := by
  constructor
  · intro hp
    simp only [SSCP_ExchangeRaw, SSCP_RawRecvAfterHeader, SSCP_RawRecvBody,
      upgradeMute, hcl, ht1, hs1, hs2, hs3, hrh, hsof, hlen2, hmax, ht2, hp,
      if_true, if_false, ne_eq, not_true_eq_false, not_false_eq_true,
      ite_false, ite_true]
  · intro hp hc
    simp only [SSCP_ExchangeRaw, SSCP_RawRecvAfterHeader, SSCP_RawRecvBody,
      SSCP_RawRecvCrc, upgradeMute, hcl, ht1, hs1, hs2, hs3, hrh, hsof,
      hlen2, hmax, ht2, hp, hc, if_true, if_false, ne_eq,
      not_true_eq_false, not_false_eq_true, ite_false, ite_true]

/-- Serial oracle that goes mute while the payload bytes are being read. -/
def ioMuteW : SerialOracle :=
  { setTimeoutsFirst := 0, sendHeader := 0, sendPayload := 0, sendCrc := 0
    recvHeader := (0, [0x02, 0x00, 0x01, 0x00, 0x21]), setTimeoutsNext := 0
    recvPayload := fun _ => (SSCP_ERR_COMM_RECV_MUTE, [])
    recvCrc := (0, [0x00, 0x00]) }

theorem C6_mute_upgraded_after_header_witness :
    (SSCP_ExchangeRaw ioMuteW 0x00 0x21 [] 100).rc =
      (if (ioMuteW.recvPayload 1).1 = SSCP_ERR_COMM_RECV_MUTE then
        SSCP_ERR_COMM_RECV_STOPPED else (ioMuteW.recvPayload 1).1) :=
  (C6_mute_upgraded_after_header ioMuteW 0x00 0x21 100 [] 1 (by decide)
    (by decide) (by decide) (by decide) (by decide) (by decide) (by decide)
    (by decide) (by decide) (by decide)).1 (by decide)

/-! ## Helper lemmas about lengths and the live-mode tail -/

theorem plainCommand_length (counter commandType commandCode : Nat)
    (data : List Nat) :
    (SSCP_PlainCommand counter commandType commandCode data).length =
      10 + data.length := by
  simp [SSCP_PlainCommand]
  omega

theorem padLive_length (n : Nat) :
    (padLive n).length = (16 - n % 16) % 16 := by
  unfold padLive
  split
  · rename_i h
    simp [h]
  · rename_i h
    simp
    omega

theorem oHMAC_length {co : CryptoOracle} {key msg h : List Nat}
    (hh : oHMAC co key msg = some h) : h.length = 32 := by
  obtain ⟨h0, _, rfl⟩ := Option.map_eq_some'.mp hh
  exact fixLen_length _ _

theorem oGetRandom_length {co : CryptoOracle} {n : Nat} {r : List Nat}
    (hr : oGetRandom co n = some r) : r.length = n := by
  obtain ⟨r0, _, rfl⟩ := Option.map_eq_some'.mp hr
  exact fixLen_length _ _

theorem oCipher_length {co : CryptoOracle} {key iv buf enc : List Nat}
    (hc : oCipher co key iv buf = some enc) : enc.length = buf.length := by
  obtain ⟨c0, _, rfl⟩ := Option.map_eq_some'.mp hc
  exact fixLen_length _ _

theorem oDecipher_length {co : CryptoOracle} {key iv buf r : List Nat}
    (hd : oDecipher co key iv buf = some r) : r.length = buf.length := by
  obtain ⟨c0, _, rfl⟩ := Option.map_eq_some'.mp hd
  exact fixLen_length _ _

theorem afterLoop_sent (ctx : SSCP_CTX_ST)
    (commandHeader maxResponseDataSz : Nat) (co : CryptoOracle)
    (cmd : List Nat) (lr : LoopResult) :
    (SSCP_ExchangeAfterLoop ctx commandHeader maxResponseDataSz co cmd
        lr).sent = List.replicate lr.attempts cmd ∧
    (SSCP_ExchangeAfterLoop ctx commandHeader maxResponseDataSz co cmd
        lr).attempts = lr.attempts := by
  unfold SSCP_ExchangeAfterLoop withTransport
  split <;> simp

/-- C4: For every command payload of length `L ≤ 4096` accepted by the
secure exchanger (with the HMAC, RNG and cipher primitives succeeding), the
transport payload handed to the framed codec has length
`((10 + L + 32 + 15) / 16) * 16 + 16` bytes: the 10-byte header plus data
plus 32-byte HMAC, padded up to a multiple of 16 (no bytes added when
already a multiple of 16, otherwise `0x80` followed by `0x00` bytes in live
mode), followed by the 16-byte IV appended after the ciphertext. -/
theorem C4_transport_length (ctx : SSCP_CTX_ST) (commandHeader : Nat)
    (data : List Nat) (co : CryptoOracle) (maxResponseDataSz : Nat)
    (raw : Nat → List Nat → Int × List Nat) (maxRetry : Nat)
    (h iv enc : List Nat)
    (hlen : data.length ≤ 4096)
    (hh : oHMAC co ctx.sessionKeySignAB
      (SSCP_PlainCommand ctx.counter ((commandHeader >>> 16) % 256)
        (commandHeader % 65536) data) = some h)
    (hr : oGetRandom co 16 = some iv)
    (hc : oCipher co ctx.sessionKeyCipherAB iv
      (SSCP_PaddedCommand
        (SSCP_PlainCommand ctx.counter ((commandHeader >>> 16) % 256)
          (commandHeader % 65536) data) h false) = some enc) :
    SSCP_BuildSecureCommand ctx commandHeader data co false =
      .ok (enc ++ iv) ∧
    (enc ++ iv).length = ((10 + data.length + 32 + 15) / 16) * 16 + 16 ∧
    SSCP_PaddedCommand
        (SSCP_PlainCommand ctx.counter ((commandHeader >>> 16) % 256)
          (commandHeader % 65536) data) h false =
      SSCP_PlainCommand ctx.counter ((commandHeader >>> 16) % 256)
          (commandHeader % 65536) data ++ h ++
        (if (10 + data.length + 32) % 16 = 0 then []
         else 0x80 :: List.replicate (15 - (10 + data.length + 32) % 16) 0) ∧
    (SSCP_ExchangeEx ctx commandHeader data maxResponseDataSz co raw maxRetry
        false).sent =
      List.replicate
        (SSCP_ExchangeEx ctx commandHeader data maxResponseDataSz co raw
          maxRetry false).attempts (enc ++ iv) := by
  have hnot : ¬ data.length > 4096 := by omega
  have hbuild : SSCP_BuildSecureCommand ctx commandHeader data co false =
      .ok (enc ++ iv) := by
    simp only [SSCP_BuildSecureCommand, hnot, hh, hr, hc, if_false,
      Bool.false_eq_true, ite_false]
  have hsplit :
      (SSCP_PlainCommand ctx.counter ((commandHeader >>> 16) % 256)
          (commandHeader % 65536) data).length + h.length =
        10 + data.length + 32 := by
    rw [plainCommand_length, oHMAC_length hh]
  have hsignedLen :
      (SSCP_PlainCommand ctx.counter ((commandHeader >>> 16) % 256)
          (commandHeader % 65536) data ++ h).length =
        10 + data.length + 32 := by
    rw [List.length_append, hsplit]
  refine ⟨hbuild, ?_, ?_, ?_⟩
  · have hencLen := oCipher_length hc
    rw [List.length_append, hencLen, oGetRandom_length hr]
    unfold SSCP_PaddedCommand
    simp only [Bool.false_eq_true, if_false, ite_false, List.length_append,
      padLive_length]
    omega
  · unfold SSCP_PaddedCommand
    simp only [Bool.false_eq_true, ite_false, List.append_assoc,
      List.append_cancel_left_eq]
    rw [hsignedLen]
    simp [padLive]
  · simp only [SSCP_ExchangeEx, hbuild, Bool.false_eq_true, ite_false]
    rcases afterLoop_sent ctx commandHeader maxResponseDataSz co (enc ++ iv)
      (SSCP_RetryLoop raw (enc ++ iv) maxRetry) with ⟨hs, ha⟩
    rw [hs, ha]

/-! ## Concrete fixtures used by the witnesses -/

def zeroKeys : List Nat := List.replicate 16 0

/-- A deterministic stand-in for the external crypto module: constant-zero
HMAC, identity cipher and decipher, zero random bytes. -/
def idOracle : CryptoOracle :=
  { hmac := fun _ _ => some (List.replicate 32 0)
    cipher := fun _ _ b => some b
    decipher := fun _ _ b => some b
    getRandom := fun n => some (List.replicate n 0) }

/-- A context holding counter 1 and all-zero session keys. -/
def ctxPre : SSCP_CTX_ST := ⟨0, 1, zeroKeys, zeroKeys, zeroKeys, zeroKeys, 0, 0, 0⟩

/-- The freshly-allocated context: counter 0, session keys never installed
(all zero). -/
def ctxZero : SSCP_CTX_ST := ⟨0, 0, zeroKeys, zeroKeys, zeroKeys, zeroKeys, 0, 0, 0⟩

/-- The ciphertext (identity cipher over the padded plaintext) that
`SSCP_BuildSecureCommand ctxPre 0 [] idOracle false` produces: plaintext
header for counter 1, zero HMAC, live padding. -/
def encPreW : List Nat :=
  [0, 0, 0, 1, 0, 0, 0, 0, 1, 0] ++ List.replicate 32 0 ++
    (0x80 :: List.replicate 5 0)

/-- The full transport command: ciphertext followed by the zero IV. -/
def cmdPreW : List Nat := encPreW ++ List.replicate 16 0

/-- A transport reply whose decrypted counter field is 2 and which passes
every validation step against `ctxPre` and command header 0 under
`idOracle`. -/
def respGoodW : List Nat := [0, 0, 0, 2] ++ List.replicate 60 0

def rawGoodW : Nat → List Nat → Int × List Nat := fun _ _ => (0, respGoodW)

theorem C4_transport_length_witness :
    cmdPreW.length = ((10 + ([] : List Nat).length + 32 + 15) / 16) * 16 + 16 ∧
    (SSCP_ExchangeEx ctxPre 0 [] 16 idOracle rawGoodW 1 false).sent =
      List.replicate
        ((SSCP_ExchangeEx ctxPre 0 [] 16 idOracle rawGoodW 1 false).attempts)
        cmdPreW := by
  have h := C4_transport_length ctxPre 0 [] idOracle 16 rawGoodW 1
    (List.replicate 32 0) (List.replicate 16 0) encPreW
    (by decide) (by decide) (by decide) (by decide)
  exact ⟨h.2.1, h.2.2.2⟩

/-- C5: In the secure exchanger's retry loop, only the framed send/receive
is retried and only when `SSCP_ExchangeRaw` returns `COMM_RECV_MUTE` or
`COMM_RECV_STOPPED`, for at most `maxRetry` (`SSCP_MAX_TIMEOUT_RETRY`)
attempts; a recovered timeout (success after at least one timed-out attempt)
increments `stats.errorCount` by one; any non-timeout failure exits the loop
immediately and is returned as is, with the context counter unchanged; and
the retried attempts all send exactly the same ciphertext bytes `cmd`
(containing the one IV drawn before the loop). -/
theorem C5_retry_policy (ctx : SSCP_CTX_ST) (commandHeader : Nat)
    (commandData : List Nat) (maxResponseDataSz : Nat) (co : CryptoOracle)
    (raw : Nat → List Nat → Int × List Nat) (maxRetry : Nat)
    (cmd lresp : List Nat) (lrc : Int) (latt : Nat) (lrec : Bool)
    (hb : SSCP_BuildSecureCommand ctx commandHeader commandData co false =
      .ok cmd)
    (hl : SSCP_RetryLoop raw cmd maxRetry = ⟨lrc, lresp, latt, lrec⟩) :
    (SSCP_ExchangeEx ctx commandHeader commandData maxResponseDataSz co raw
        maxRetry false).attempts = latt ∧
    latt ≤ maxRetry ∧
    (SSCP_ExchangeEx ctx commandHeader commandData maxResponseDataSz co raw
        maxRetry false).sent = List.replicate latt cmd ∧
    (∀ i, i + 1 < latt →
      (raw i cmd).1 = SSCP_ERR_COMM_RECV_MUTE ∨
        (raw i cmd).1 = SSCP_ERR_COMM_RECV_STOPPED) ∧
    (lrec = true ↔ (lrc = 0 ∧ 1 < latt)) ∧
    (SSCP_ExchangeEx ctx commandHeader commandData maxResponseDataSz co raw
        maxRetry false).ctx.statsErrorCount =
      (if lrec then (ctx.statsErrorCount + 1) % 4294967296
       else ctx.statsErrorCount) ∧
    (lrc ≠ 0 →
      (SSCP_ExchangeEx ctx commandHeader commandData maxResponseDataSz co raw
          maxRetry false).rc = lrc ∧
      (SSCP_ExchangeEx ctx commandHeader commandData maxResponseDataSz co raw
          maxRetry false).ctx.counter = ctx.counter) := by
  have hEx : SSCP_ExchangeEx ctx commandHeader commandData maxResponseDataSz
      co raw maxRetry false =
      SSCP_ExchangeAfterLoop ctx commandHeader maxResponseDataSz co cmd
        ⟨lrc, lresp, latt, lrec⟩ := by
    simp only [SSCP_ExchangeEx, hb, Bool.false_eq_true, ite_false, hl]
  have hloop : retryGo raw cmd (SSCP_ERR_INTERNAL_FAILURE, []) 0 maxRetry =
      ⟨lrc, lresp, latt, lrec⟩ := hl
  refine ⟨?_, ?_, ?_, ?_, ?_, ?_, ?_⟩
  · rw [hEx]
    exact (afterLoop_sent _ _ _ _ _ _).2
  · have h2 := retryGo_attempts_le raw cmd maxRetry 0
      (SSCP_ERR_INTERNAL_FAILURE, [])
    rw [hloop] at h2
    simpa using h2
  · rw [hEx, (afterLoop_sent _ _ _ _ _ _).1]
  · intro i hi
    have h4 := retryGo_timeouts raw cmd maxRetry 0
      (SSCP_ERR_INTERNAL_FAILURE, []) i (Nat.zero_le i)
    rw [hloop] at h4
    exact h4 hi
  · have h5 := retryGo_recovered raw cmd maxRetry 0
      (SSCP_ERR_INTERNAL_FAILURE, []) (by decide)
    rw [hloop] at h5
    exact h5
  · rw [hEx]
    unfold SSCP_ExchangeAfterLoop
    split
    · unfold SSCP_CtxAfterLoop
      cases lrec <;> simp
    · unfold withTransport
      simp only [process_errorCount]
      unfold SSCP_CtxAfterLoop
      cases lrec <;> simp
  · intro hnz
    rw [hEx]
    unfold SSCP_ExchangeAfterLoop
    split
    · unfold SSCP_CtxAfterLoop
      cases lrec <;> simp
    · rename_i hz
      simp at hz
      exact absurd hz hnz

/-- A transport that times out on the first attempt and succeeds on the
second. -/
def rawRetryW : Nat → List Nat → Int × List Nat :=
  fun i _ => if i = 0 then (SSCP_ERR_COMM_RECV_MUTE, []) else (0, respGoodW)

theorem C5_retry_policy_witness :
    (SSCP_ExchangeEx ctxPre 0 [] 16 idOracle rawRetryW 3 false).attempts = 2 ∧
    (SSCP_ExchangeEx ctxPre 0 [] 16 idOracle rawRetryW 3 false).sent =
      List.replicate 2 cmdPreW ∧
    (SSCP_ExchangeEx ctxPre 0 [] 16 idOracle rawRetryW 3
        false).ctx.statsErrorCount =
      (if true then (ctxPre.statsErrorCount + 1) % 4294967296
       else ctxPre.statsErrorCount) := by
  have h := C5_retry_policy ctxPre 0 [] 16 idOracle rawRetryW 3 cmdPreW
    respGoodW 0 2 true rfl rfl
  exact ⟨h.1, h.2.2.1, h.2.2.2.2.2.1⟩

theorem ctxAfterLoop_fields (ctx : SSCP_CTX_ST) (lr : LoopResult) :
    (SSCP_CtxAfterLoop ctx lr).counter = ctx.counter ∧
    (SSCP_CtxAfterLoop ctx lr).sessionKeyCipherBA =
      ctx.sessionKeyCipherBA := by
  unfold SSCP_CtxAfterLoop
  split <;> exact ⟨rfl, rfl⟩

/-- Shared characterisation of the counter check in the response phase:
rejection with an untouched context when the decoded counter is not
strictly greater, the `decoded + 1` (32-bit) update when it is, and the fact
that a successful response implies the check passed. -/
theorem process_counter_spec (ctx : SSCP_CTX_ST)
    (commandType commandCode maxResponseDataSz : Nat) (co : CryptoOracle)
    (response : List Nat) (r : List Nat)
    (hsz : ¬ (response.length < 16 ∨ response.length % 16 ≠ 0))
    (hdec : oDecipher co ctx.sessionKeyCipherBA
        ((response.map (· % 256)).drop (response.length - 16))
        ((response.map (· % 256)).take (response.length - 16)) = some r) :
    (decodeBE4 r ≤ ctx.counter →
      (SSCP_ProcessSecureResponse ctx commandType commandCode
          maxResponseDataSz co response).rc =
        SSCP_ERR_WRONG_RESPONSE_COUNTER ∧
      (SSCP_ProcessSecureResponse ctx commandType commandCode
          maxResponseDataSz co response).ctx = ctx) ∧
    (ctx.counter < decodeBE4 r →
      (SSCP_ProcessSecureResponse ctx commandType commandCode
          maxResponseDataSz co response).ctx.counter =
        (decodeBE4 r + 1) % 4294967296) ∧
    ((SSCP_ProcessSecureResponse ctx commandType commandCode
        maxResponseDataSz co response).rc = SSCP_SUCCESS →
      ctx.counter < decodeBE4 r) := by
  have hP : SSCP_ProcessSecureResponse ctx commandType commandCode
      maxResponseDataSz co response =
      SSCP_ProcessDecrypted ctx commandType commandCode maxResponseDataSz
        (response.length - 16) co r := by
    simp only [SSCP_ProcessSecureResponse, hsz, hdec, if_false, ite_false]
  rw [hP]
  refine ⟨?_, ?_, ?_⟩
  · intro hle
    have hnot : ¬ decodeBE4 r > ctx.counter := by omega
    unfold SSCP_ProcessDecrypted
    simp [hnot]
  · intro hgt
    unfold SSCP_ProcessDecrypted
    simp only [hgt, if_true, ite_true, gt_iff_lt]
    split
    · rfl
    · rw [checks_ctx]
  · intro hsucc
    by_cases hgt : decodeBE4 r > ctx.counter
    · exact hgt
    · unfold SSCP_ProcessDecrypted at hsucc
      simp only [hgt, if_false, ite_false] at hsucc
      exact absurd hsucc (by decide)

/-- C1 (amended): For every secure exchange via `SSCP_ExchangeEx` whose
transport succeeded and whose response decrypted: if the decoded counter is
less than or equal to the context counter, the call returns
`WRONG_RESPONSE_COUNTER` and the context counter is unchanged; if it is
strictly greater, the context counter is set to `(decoded + 1) mod 2^32`;
consequently every successful secure exchange whose decoded counter is below
`2^32 - 1` leaves the post-call context counter strictly greater than the
pre-call counter (at decoded counter `2^32 - 1` the update wraps to 0). -/
theorem C1_counter_update (ctx : SSCP_CTX_ST) (commandHeader : Nat)
    (commandData : List Nat) (maxResponseDataSz : Nat) (co : CryptoOracle)
    (raw : Nat → List Nat → Int × List Nat) (maxRetry : Nat)
    (cmd resp r : List Nat) (att : Nat) (rec : Bool)
    (hb : SSCP_BuildSecureCommand ctx commandHeader commandData co false =
      .ok cmd)
    (hl : SSCP_RetryLoop raw cmd maxRetry = ⟨0, resp, att, rec⟩)
    (hsz : ¬ (resp.length < 16 ∨ resp.length % 16 ≠ 0))
    (hdec : oDecipher co ctx.sessionKeyCipherBA
        ((resp.map (· % 256)).drop (resp.length - 16))
        ((resp.map (· % 256)).take (resp.length - 16)) = some r) :
    (decodeBE4 r ≤ ctx.counter →
      (SSCP_ExchangeEx ctx commandHeader commandData maxResponseDataSz co raw
          maxRetry false).rc = SSCP_ERR_WRONG_RESPONSE_COUNTER ∧
      (SSCP_ExchangeEx ctx commandHeader commandData maxResponseDataSz co raw
          maxRetry false).ctx.counter = ctx.counter) ∧
    (ctx.counter < decodeBE4 r →
      (SSCP_ExchangeEx ctx commandHeader commandData maxResponseDataSz co raw
          maxRetry false).ctx.counter = (decodeBE4 r + 1) % 4294967296) ∧
    ((SSCP_ExchangeEx ctx commandHeader commandData maxResponseDataSz co raw
        maxRetry false).rc = SSCP_SUCCESS →
      ctx.counter < decodeBE4 r ∧
      (SSCP_ExchangeEx ctx commandHeader commandData maxResponseDataSz co raw
          maxRetry false).ctx.counter = (decodeBE4 r + 1) % 4294967296 ∧
      (decodeBE4 r < 4294967295 →
        ctx.counter <
          (SSCP_ExchangeEx ctx commandHeader commandData maxResponseDataSz co
            raw maxRetry false).ctx.counter)) := by
  have hEx : SSCP_ExchangeEx ctx commandHeader commandData maxResponseDataSz
      co raw maxRetry false =
      withTransport
        (SSCP_ProcessSecureResponse
          (SSCP_CtxAfterLoop ctx ⟨0, resp, att, rec⟩)
          ((commandHeader >>> 16) % 256) (commandHeader % 65536)
          maxResponseDataSz co resp)
        att (List.replicate att cmd) := by
    simp only [SSCP_ExchangeEx, hb, Bool.false_eq_true, ite_false, hl,
      SSCP_ExchangeAfterLoop]
    simp
  obtain ⟨hcnt, hkey⟩ := ctxAfterLoop_fields ctx (⟨0, resp, att, rec⟩ : LoopResult)
  have hdec' : oDecipher co
      (SSCP_CtxAfterLoop ctx ⟨0, resp, att, rec⟩).sessionKeyCipherBA
      ((resp.map (· % 256)).drop (resp.length - 16))
      ((resp.map (· % 256)).take (resp.length - 16)) = some r := by
    rw [hkey]
    exact hdec
  have hspec := process_counter_spec
    (SSCP_CtxAfterLoop ctx ⟨0, resp, att, rec⟩)
    ((commandHeader >>> 16) % 256) (commandHeader % 65536) maxResponseDataSz
    co resp r hsz hdec'
  rw [hcnt] at hspec
  rw [hEx]
  unfold withTransport
  refine ⟨?_, ?_, ?_⟩
  · intro hle
    rcases hspec.1 hle with ⟨h1, h2⟩
    refine ⟨h1, ?_⟩
    rw [h2, hcnt]
  · intro hgt
    exact hspec.2.1 hgt
  · intro hsucc
    have hgt := hspec.2.2 hsucc
    have hupd := hspec.2.1 hgt
    refine ⟨hgt, hupd, ?_⟩
    intro hlt
    rw [hupd]
    omega

/-- A transport reply whose decrypted counter field is `0xFFFFFFFF`; it
passes every validation step against `ctxPre` and command header 0 under
`idOracle`, so the exchange succeeds while the 32-bit counter update wraps
to 0. -/
def respWrapW : List Nat := [255, 255, 255, 255] ++ List.replicate 60 0

def rawWrapW : Nat → List Nat → Int × List Nat := fun _ _ => (0, respWrapW)

/-- C1 (counterexample to the claim as stated): a secure exchange that
returns `SSCP_SUCCESS` while the post-call context counter (0, wrapped) is
not strictly greater than the pre-call counter (1): the reader echoed
counter `0xFFFFFFFF` and `counter ← decoded + 1` wraps in 32-bit
arithmetic. -/
theorem C1_counter_update_counterexample :
    (SSCP_ExchangeEx ctxPre 0 [] 16 idOracle rawWrapW 1 false).rc =
      SSCP_SUCCESS ∧
    (SSCP_ExchangeEx ctxPre 0 [] 16 idOracle rawWrapW 1 false).ctx.counter =
      0 ∧
    ¬ ctxPre.counter <
        (SSCP_ExchangeEx ctxPre 0 [] 16 idOracle rawWrapW 1
          false).ctx.counter := by
  decide

/-- The decrypted body of `respGoodW` under the identity decipher. -/
def rGoodW : List Nat := [0, 0, 0, 2] ++ List.replicate 44 0

theorem C1_counter_update_witness :
    (SSCP_ExchangeEx ctxPre 0 [] 16 idOracle rawGoodW 1
        false).ctx.counter = (decodeBE4 rGoodW + 1) % 4294967296 :=
  (C1_counter_update ctxPre 0 [] 16 idOracle rawGoodW 1 cmdPreW respGoodW
    rGoodW 1 false rfl rfl (by decide) (by decide)).2.1 (by decide)

theorem retryGo_attempts_pos (raw : Nat → List Nat → Int × List Nat)
    (cmd : List Nat) (fuel retry : Nat) (last : Int × List Nat)
    (hf : 0 < fuel) :
    retry < (retryGo raw cmd last retry fuel).attempts := by
  cases fuel with
  | zero => omega
  | succ n =>
      by_cases h1 : (raw retry cmd).1 = SSCP_SUCCESS
      · simp [retryGo, h1]
      · by_cases h2 : (raw retry cmd).1 = SSCP_ERR_COMM_RECV_MUTE ∨
            (raw retry cmd).1 = SSCP_ERR_COMM_RECV_STOPPED
        · simp only [retryGo, h1, h2, if_true, if_false]
          exact lt_of_lt_of_le (by omega)
            (retryGo_attempts_ge raw cmd n (retry + 1) _)
        · simp [retryGo, h1, h2]

/-- A transport reply whose decrypted counter field is 1; it passes every
validation step against the never-authenticated context `ctxZero` (counter
0, all-zero session keys) under `idOracle`. -/
def respNoAuthW : List Nat := [0, 0, 0, 1] ++ List.replicate 60 0

def rawNoAuthW : Nat → List Nat → Int × List Nat := fun _ _ => (0, respNoAuthW)

/-- C2 (counterexample to the claim as stated): on a context whose session
keys were never installed by an authentication (the freshly-allocated
all-zero state), `SSCP_ExchangeEx` is not rejected: it performs the
transport attempt and even returns `SSCP_SUCCESS`, using the zero key bytes
for the HMAC and cipher. -/
theorem C2_no_key_check_counterexample :
    ctxZero.sessionKeyCipherAB = List.replicate 16 0 ∧
    ctxZero.sessionKeyCipherBA = List.replicate 16 0 ∧
    ctxZero.sessionKeySignAB = List.replicate 16 0 ∧
    ctxZero.sessionKeySignBA = List.replicate 16 0 ∧
    (SSCP_ExchangeEx ctxZero 0 [] 16 idOracle rawNoAuthW 1 false).attempts =
      1 ∧
    (SSCP_ExchangeEx ctxZero 0 [] 16 idOracle rawNoAuthW 1 false).rc =
      SSCP_SUCCESS := by
  decide

/-- C2 (amended): `SSCP_ExchangeEx` performs no session-key check at all:
for every context — in particular one whose keys have never been installed —
once the size check and the crypto primitives succeed, the exchange proceeds
and hands the ciphertext built under the context's current key bytes to the
framed codec at least once. -/
theorem C2_no_key_check (ctx : SSCP_CTX_ST) (commandHeader : Nat)
    (commandData : List Nat) (maxResponseDataSz : Nat) (co : CryptoOracle)
    (raw : Nat → List Nat → Int × List Nat) (maxRetry : Nat)
    (cmd : List Nat)
    (hb : SSCP_BuildSecureCommand ctx commandHeader commandData co false =
      .ok cmd)
    (hm : 0 < maxRetry) :
    0 < (SSCP_ExchangeEx ctx commandHeader commandData maxResponseDataSz co
        raw maxRetry false).attempts ∧
    (SSCP_ExchangeEx ctx commandHeader commandData maxResponseDataSz co raw
        maxRetry false).sent =
      List.replicate
        (SSCP_ExchangeEx ctx commandHeader commandData maxResponseDataSz co
          raw maxRetry false).attempts cmd := by
  have hEx : SSCP_ExchangeEx ctx commandHeader commandData maxResponseDataSz
      co raw maxRetry false =
      SSCP_ExchangeAfterLoop ctx commandHeader maxResponseDataSz co cmd
        (SSCP_RetryLoop raw cmd maxRetry) := by
    simp only [SSCP_ExchangeEx, hb, Bool.false_eq_true, ite_false]
  obtain ⟨hs, ha⟩ := afterLoop_sent ctx commandHeader maxResponseDataSz co
    cmd (SSCP_RetryLoop raw cmd maxRetry)
  rw [hEx, hs, ha]
  refine ⟨?_, rfl⟩
  exact retryGo_attempts_pos raw cmd maxRetry 0 _ hm

theorem C2_no_key_check_witness :
    0 < (SSCP_ExchangeEx ctxZero 0 [] 16 idOracle rawNoAuthW 2
        false).attempts ∧
    (SSCP_ExchangeEx ctxZero 0 [] 16 idOracle rawNoAuthW 2 false).sent =
      List.replicate
        (SSCP_ExchangeEx ctxZero 0 [] 16 idOracle rawNoAuthW 2
          false).attempts
        ([0, 0, 0, 0, 0, 0, 0, 0, 1, 0] ++ List.replicate 32 0 ++
          (0x80 :: List.replicate 5 0) ++ List.replicate 16 0) :=
  C2_no_key_check ctxZero 0 [] 16 idOracle rawNoAuthW 2
    ([0, 0, 0, 0, 0, 0, 0, 0, 1, 0] ++ List.replicate 32 0 ++
      (0x80 :: List.replicate 5 0) ++ List.replicate 16 0)
    rfl (by decide)

/-- C10: The secure exchanger's counter update is not atomic with overall
success: whenever the decoded counter is strictly greater than the context
counter but the call then fails a later step (wrong opcode, wrong length
envelope, wrong HMAC, wrong status type, output-buffer overflow, or a
nonzero device status), the returned context already carries
`counter = (decoded + 1) mod 2^32` — the update is not rolled back. -/
theorem C10_counter_not_rolled_back (ctx : SSCP_CTX_ST)
    (commandHeader : Nat) (commandData : List Nat)
    (maxResponseDataSz : Nat) (co : CryptoOracle)
    (raw : Nat → List Nat → Int × List Nat) (maxRetry : Nat)
    (cmd resp r : List Nat) (att : Nat) (rec : Bool)
    (hb : SSCP_BuildSecureCommand ctx commandHeader commandData co false =
      .ok cmd)
    (hl : SSCP_RetryLoop raw cmd maxRetry = ⟨0, resp, att, rec⟩)
    (hsz : ¬ (resp.length < 16 ∨ resp.length % 16 ≠ 0))
    (hdec : oDecipher co ctx.sessionKeyCipherBA
        ((resp.map (· % 256)).drop (resp.length - 16))
        ((resp.map (· % 256)).take (resp.length - 16)) = some r)
    (hgt : ctx.counter < decodeBE4 r)
    (herr : (SSCP_ExchangeEx ctx commandHeader commandData maxResponseDataSz
        co raw maxRetry false).rc ≠ SSCP_SUCCESS) :
    (SSCP_ExchangeEx ctx commandHeader commandData maxResponseDataSz co raw
        maxRetry false).ctx.counter = (decodeBE4 r + 1) % 4294967296 := by
  have hEx : SSCP_ExchangeEx ctx commandHeader commandData maxResponseDataSz
      co raw maxRetry false =
      withTransport
        (SSCP_ProcessSecureResponse
          (SSCP_CtxAfterLoop ctx ⟨0, resp, att, rec⟩)
          ((commandHeader >>> 16) % 256) (commandHeader % 65536)
          maxResponseDataSz co resp)
        att (List.replicate att cmd) := by
    simp only [SSCP_ExchangeEx, hb, Bool.false_eq_true, ite_false, hl,
      SSCP_ExchangeAfterLoop]
    simp
  obtain ⟨hcnt, hkey⟩ := ctxAfterLoop_fields ctx
    (⟨0, resp, att, rec⟩ : LoopResult)
  have hdec' : oDecipher co
      (SSCP_CtxAfterLoop ctx ⟨0, resp, att, rec⟩).sessionKeyCipherBA
      ((resp.map (· % 256)).drop (resp.length - 16))
      ((resp.map (· % 256)).take (resp.length - 16)) = some r := by
    rw [hkey]
    exact hdec
  have hspec := process_counter_spec
    (SSCP_CtxAfterLoop ctx ⟨0, resp, att, rec⟩)
    ((commandHeader >>> 16) % 256) (commandHeader % 65536) maxResponseDataSz
    co resp r hsz hdec'
  rw [hcnt] at hspec
  rw [hEx]
  exact hspec.2.1 hgt

/-- A transport reply whose decrypted counter field is 2 (strictly greater
than `ctxPre`'s counter 1) but whose opcode echo (`09 09`) does not match
command header 0. -/
def respBadOpW : List Nat := [0, 0, 0, 2, 9, 9] ++ List.replicate 58 0

def rawBadOpW : Nat → List Nat → Int × List Nat := fun _ _ => (0, respBadOpW)

/-- The decrypted body of `respBadOpW` under the identity decipher. -/
def rBadOpW : List Nat := [0, 0, 0, 2, 9, 9] ++ List.replicate 42 0

theorem C10_counter_not_rolled_back_witness :
    (SSCP_ExchangeEx ctxPre 0 [] 16 idOracle rawBadOpW 1
        false).ctx.counter = (decodeBE4 rBadOpW + 1) % 4294967296 :=
  C10_counter_not_rolled_back ctxPre 0 [] 16 idOracle rawBadOpW 1 cmdPreW
    respBadOpW rBadOpW 1 false rfl rfl (by decide) (by decide) (by decide)
    (by decide)

/-- C7: In `SSCP_Authenticate` (live mode), with the caller's 16-byte key —
or the default transport key when the caller passes `none`/NULL — the host
recomputes the HMAC of the key over exactly the first 40 bytes of the
round-1 response (`B‖A‖RndA'‖RndB`) and compares it to the 32 bytes at
offset 40; on mismatch the function returns `WRONG_RESPONSE_SIGNATURE` with
the context — in particular the session keys — completely unchanged. -/
theorem C7_round1_signature (ctx : SSCP_CTX_ST)
    (authKeyValue : Option (List Nat)) (co : CryptoOracle)
    (raw1 raw2 : List Nat → Int × List Nat)
    (deriveKeys : List Nat → List Nat → List Nat →
      Option (List Nat × List Nat × List Nat × List Nat))
    (now : Nat) (rndA resp1 hB : List Nat)
    (hr : oGetRandom co 16 = some rndA)
    (h1 : raw1 ([0x00, 0x00] ++ rndA) = (0, resp1))
    (hh : oHMAC co ((authKeyValue.getD SSCP_DEFAULT_AUTH_KEY).map (· % 256))
        ((fixLen 256 (resp1.map (· % 256))).take 40) = some hB)
    (hne : hB ≠ ((fixLen 256 (resp1.map (· % 256))).drop 40).take 32) :
    SSCP_Authenticate ctx authKeyValue co raw1 raw2 deriveKeys false now =
      (SSCP_ERR_WRONG_RESPONSE_SIGNATURE, ctx) := by
  simp only [SSCP_Authenticate, SSCP_AuthWithR1, SSCP_AuthFinish,
    Bool.false_eq_true, ite_false, hr, h1, hh, hne, if_true, if_false,
    ne_eq, not_true_eq_false, not_false_eq_true]

/-- A round-1 response whose 40-byte prefix is all zero and whose signature
field starts with a 1, so it cannot match the constant-zero HMAC oracle. -/
def resp1BadW : List Nat := List.replicate 40 0 ++ [1]

def raw1BadW : List Nat → Int × List Nat := fun _ => (0, resp1BadW)

def rawAckW : List Nat → Int × List Nat := fun _ => (0, [])

def deriveKeysW : List Nat → List Nat → List Nat →
    Option (List Nat × List Nat × List Nat × List Nat) :=
  fun _ _ _ => some (zeroKeys, zeroKeys, zeroKeys, zeroKeys)

theorem C7_round1_signature_witness :
    SSCP_Authenticate ctxZero none idOracle raw1BadW rawAckW deriveKeysW
      false 55 = (SSCP_ERR_WRONG_RESPONSE_SIGNATURE, ctxZero) :=
  C7_round1_signature ctxZero none idOracle raw1BadW rawAckW deriveKeysW 55
    (List.replicate 16 0) resp1BadW (List.replicate 32 0) (by decide)
    (by decide) (by decide) (by decide)

/-- The success postcondition of the authenticator, used to chain its
stages: counter 1, session statistics stamped, and the four session keys
equal to the quadruple produced by the key derivation for the negotiated
key and the given nonce pair `(rA, rB)`. -/
def AuthPost (ctx : SSCP_CTX_ST) (key : List Nat)
    (deriveKeys : List Nat → List Nat → List Nat →
      Option (List Nat × List Nat × List Nat × List Nat))
    (now : Nat) (rA rB : List Nat) (res : Int × SSCP_CTX_ST) : Prop :=
  res.2.counter = 1 ∧
  res.2.statsSessionCount = (ctx.statsSessionCount + 1) % 4294967296 ∧
  res.2.statsWhenSession = now ∧
  ∃ ks, deriveKeys key rA rB = some ks ∧
    res.2.sessionKeyCipherAB = ks.1 ∧
    res.2.sessionKeyCipherBA = ks.2.1 ∧
    res.2.sessionKeySignAB = ks.2.2.1 ∧
    res.2.sessionKeySignBA = ks.2.2.2

theorem authInstall_post (ctx : SSCP_CTX_ST) (key rA rB : List Nat)
    (deriveKeys : List Nat → List Nat → List Nat →
      Option (List Nat × List Nat × List Nat × List Nat))
    (now : Nat)
    (hsucc : (SSCP_AuthInstall ctx key rA rB deriveKeys now).1 =
      SSCP_SUCCESS) :
    AuthPost ctx key deriveKeys now rA rB
      (SSCP_AuthInstall ctx key rA rB deriveKeys now) := by
  unfold SSCP_AuthInstall at hsucc ⊢
  unfold AuthPost
  rcases hks : deriveKeys key rA rB with _ | ks
  · rw [hks] at hsucc
    simp [SSCP_SUCCESS, SSCP_ERR_INTERNAL_FAILURE] at hsucc
  · exact ⟨rfl, rfl, rfl, ks, rfl, rfl, rfl, rfl, rfl⟩

theorem authWithR2_post (ctx : SSCP_CTX_ST) (key rA rB : List Nat)
    (deriveKeys : List Nat → List Nat → List Nat →
      Option (List Nat × List Nat × List Nat × List Nat))
    (now : Nat) (r2 : Int × List Nat)
    (hsucc : (SSCP_AuthWithR2 ctx key rA rB deriveKeys now r2).1 =
      SSCP_SUCCESS) :
    AuthPost ctx key deriveKeys now rA rB
      (SSCP_AuthWithR2 ctx key rA rB deriveKeys now r2) := by
  unfold SSCP_AuthWithR2 at hsucc ⊢
  by_cases hz : r2.1 = 0
  · simp only [hz, ne_eq, not_true_eq_false, if_false, ite_false] at hsucc ⊢
    exact authInstall_post ctx key rA rB deriveKeys now hsucc
  · simp only [hz, ne_eq, not_false_eq_true, if_true, ite_true] at hsucc
    exact absurd hsucc hz

theorem authRound2_post (ctx : SSCP_CTX_ST) (key rA A rB : List Nat)
    (co : CryptoOracle) (raw2 : List Nat → Int × List Nat)
    (deriveKeys : List Nat → List Nat → List Nat →
      Option (List Nat × List Nat × List Nat × List Nat))
    (selftest : Bool) (now : Nat)
    (hsucc : (SSCP_AuthRound2 ctx key rA A rB co raw2 deriveKeys selftest
      now).1 = SSCP_SUCCESS) :
    AuthPost ctx key deriveKeys now rA rB
      (SSCP_AuthRound2 ctx key rA A rB co raw2 deriveKeys selftest now) := by
  unfold SSCP_AuthRound2 at hsucc ⊢
  rcases hhA : oHMAC co key (A ++ rB) with _ | hA
  · rw [hhA] at hsucc
    simp [SSCP_SUCCESS, SSCP_ERR_INTERNAL_FAILURE] at hsucc
  · rw [hhA] at hsucc
    exact authWithR2_post ctx key rA rB deriveKeys now _ hsucc

theorem authFinish_post (ctx : SSCP_CTX_ST) (key rA : List Nat)
    (co : CryptoOracle) (raw2 : List Nat → Int × List Nat)
    (deriveKeys : List Nat → List Nat → List Nat →
      Option (List Nat × List Nat × List Nat × List Nat))
    (selftest : Bool) (now : Nat) (buf : List Nat)
    (hsucc : (SSCP_AuthFinish ctx key rA co raw2 deriveKeys selftest now
      buf).1 = SSCP_SUCCESS) :
    AuthPost ctx key deriveKeys now rA ((buf.drop 24).take 16)
      (SSCP_AuthFinish ctx key rA co raw2 deriveKeys selftest now buf) := by
  unfold SSCP_AuthFinish at hsucc ⊢
  rcases hhB : oHMAC co key (buf.take 40) with _ | hB
  · rw [hhB] at hsucc
    simp [SSCP_SUCCESS, SSCP_ERR_INTERNAL_FAILURE] at hsucc
  · rw [hhB] at hsucc
    by_cases hne : hB = (buf.drop 40).take 32
    · simp only [hne, ne_eq, not_true_eq_false, if_false, ite_false]
        at hsucc ⊢
      exact authRound2_post ctx key rA _ _ co raw2 deriveKeys selftest now
        hsucc
    · simp only [hne, ne_eq, not_false_eq_true, if_true, ite_true] at hsucc
      exact absurd hsucc (by decide)

theorem authWithR1_post (ctx : SSCP_CTX_ST) (key rA : List Nat)
    (co : CryptoOracle) (raw2 : List Nat → Int × List Nat)
    (deriveKeys : List Nat → List Nat → List Nat →
      Option (List Nat × List Nat × List Nat × List Nat))
    (selftest : Bool) (now : Nat) (r1 : Int × List Nat)
    (hsucc : (SSCP_AuthWithR1 ctx key rA co raw2 deriveKeys selftest now
      r1).1 = SSCP_SUCCESS) :
    AuthPost ctx key deriveKeys now rA
      (((fixLen 256 (r1.2.map (· % 256))).drop 24).take 16)
      (SSCP_AuthWithR1 ctx key rA co raw2 deriveKeys selftest now r1) := by
  unfold SSCP_AuthWithR1 at hsucc ⊢
  by_cases hz : r1.1 = 0
  · simp only [hz, ne_eq, not_true_eq_false, if_false, ite_false] at hsucc ⊢
    exact authFinish_post ctx key rA co raw2 deriveKeys selftest now _ hsucc
  · simp only [hz, ne_eq, not_false_eq_true, if_true, ite_true] at hsucc
    exact absurd hsucc hz

/-- C8: Whenever `SSCP_Authenticate` returns `SSCP_SUCCESS` — with `rndA`
the nonce actually drawn for round 1 (the self-test vector, or the RNG
output) and `resp1` the round-1 response the transport actually delivered —
the returned context satisfies: counter equals 1, `stats.sessionCount` has
been incremented by exactly 1, `stats.whenSession` holds the current time,
and the four session keys are exactly the quadruple produced by the
session-key derivation from the authentication key (the caller's, or the
default transport key for NULL), this `RndA`, and the `RndB` taken from
bytes 24..40 of that response; in particular (see the witness) in self-test
mode with `authKey = none` it returns `SSCP_SUCCESS` with counter 1. -/
theorem C8_auth_postconditions (ctx : SSCP_CTX_ST)
    (authKeyValue : Option (List Nat)) (co : CryptoOracle)
    (raw1 raw2 : List Nat → Int × List Nat)
    (deriveKeys : List Nat → List Nat → List Nat →
      Option (List Nat × List Nat × List Nat × List Nat))
    (selftest : Bool) (now : Nat) (rndA resp1 : List Nat)
    (hsc : ctx.statsSessionCount + 1 < 4294967296)
    (hrnd : (if selftest then some selftestRndA else oGetRandom co 16) =
      some rndA)
    (hr1 : (if selftest then ((0 : Int), authRound1Response)
      else raw1 ([0x00, 0x00] ++ rndA)) = (0, resp1))
    (hsucc : (SSCP_Authenticate ctx authKeyValue co raw1 raw2 deriveKeys
        selftest now).1 = SSCP_SUCCESS) :
    (SSCP_Authenticate ctx authKeyValue co raw1 raw2 deriveKeys selftest
        now).2.counter = 1 ∧
    (SSCP_Authenticate ctx authKeyValue co raw1 raw2 deriveKeys selftest
        now).2.statsSessionCount = ctx.statsSessionCount + 1 ∧
    (SSCP_Authenticate ctx authKeyValue co raw1 raw2 deriveKeys selftest
        now).2.statsWhenSession = now ∧
    ∃ ks,
      deriveKeys ((authKeyValue.getD SSCP_DEFAULT_AUTH_KEY).map (· % 256))
        rndA (((fixLen 256 (resp1.map (· % 256))).drop 24).take 16) =
        some ks ∧
      (SSCP_Authenticate ctx authKeyValue co raw1 raw2 deriveKeys selftest
        now).2.sessionKeyCipherAB = ks.1 ∧
      (SSCP_Authenticate ctx authKeyValue co raw1 raw2 deriveKeys selftest
        now).2.sessionKeyCipherBA = ks.2.1 ∧
      (SSCP_Authenticate ctx authKeyValue co raw1 raw2 deriveKeys selftest
        now).2.sessionKeySignAB = ks.2.2.1 ∧
      (SSCP_Authenticate ctx authKeyValue co raw1 raw2 deriveKeys selftest
        now).2.sessionKeySignBA = ks.2.2.2 := by
  have hE1 : SSCP_Authenticate ctx authKeyValue co raw1 raw2 deriveKeys
      selftest now =
      SSCP_AuthWithR1 ctx
        ((authKeyValue.getD SSCP_DEFAULT_AUTH_KEY).map (· % 256)) rndA co
        raw2 deriveKeys selftest now ((0 : Int), resp1) := by
    simp only [SSCP_Authenticate, hrnd, hr1]
  rw [hE1] at hsucc ⊢
  have hpost := authWithR1_post ctx
    ((authKeyValue.getD SSCP_DEFAULT_AUTH_KEY).map (· % 256)) rndA co raw2
    deriveKeys selftest now ((0 : Int), resp1) hsucc
  unfold AuthPost at hpost
  obtain ⟨h1, h2, h3, ks, hks, k1, k2, k3, k4⟩ := hpost
  refine ⟨h1, ?_, h3, ks, hks, k1, k2, k3, k4⟩
  rw [h2]
  omega

/-- The 32-byte `hB` tail of the canned self-test round-1 response. -/
def authRound1Tail : List Nat := (authRound1Response.drop 40).take 32

/-- A crypto oracle whose HMAC always returns the canned `hB`, making the
self-test round-1 signature check pass. -/
def stOracle : CryptoOracle :=
  { hmac := fun _ _ => some authRound1Tail
    cipher := fun _ _ b => some b
    decipher := fun _ _ b => some b
    getRandom := fun n => some (List.replicate n 0) }

theorem C8_auth_postconditions_witness :
    (SSCP_Authenticate ctxZero none stOracle rawAckW rawAckW deriveKeysW
        true 77).1 = SSCP_SUCCESS ∧
    (SSCP_Authenticate ctxZero none stOracle rawAckW rawAckW deriveKeysW
        true 77).2.counter = 1 ∧
    (SSCP_Authenticate ctxZero none stOracle rawAckW rawAckW deriveKeysW
        true 77).2.statsSessionCount = ctxZero.statsSessionCount + 1 ∧
    (SSCP_Authenticate ctxZero none stOracle rawAckW rawAckW deriveKeysW
        true 77).2.statsWhenSession = 77 ∧
    ∃ ks,
      deriveKeysW
        (((none : Option (List Nat)).getD SSCP_DEFAULT_AUTH_KEY).map
          (· % 256))
        selftestRndA
        (((fixLen 256 (authRound1Response.map (· % 256))).drop 24).take
          16) = some ks ∧
      (SSCP_Authenticate ctxZero none stOracle rawAckW rawAckW deriveKeysW
        true 77).2.sessionKeyCipherAB = ks.1 ∧
      (SSCP_Authenticate ctxZero none stOracle rawAckW rawAckW deriveKeysW
        true 77).2.sessionKeyCipherBA = ks.2.1 ∧
      (SSCP_Authenticate ctxZero none stOracle rawAckW rawAckW deriveKeysW
        true 77).2.sessionKeySignAB = ks.2.2.1 ∧
      (SSCP_Authenticate ctxZero none stOracle rawAckW rawAckW deriveKeysW
        true 77).2.sessionKeySignBA = ks.2.2.2 := by
  have h := C8_auth_postconditions ctxZero none stOracle rawAckW rawAckW
    deriveKeysW true 77 selftestRndA authRound1Response (by decide)
    (by decide) (by decide) (by decide)
  exact ⟨by decide, h.1, h.2.1, h.2.2.1, h.2.2.2⟩

/-- C9 (counterexample to the claim as stated): a secure response whose
first byte is `0x00` does not always yield `SSCP_SUCCESS`: when the
remaining bytes exceed the caller's buffer, `SSCP_TransceiveNFC` returns
`SSCP_ERR_OUTPUT_BUFFER_OVERFLOW` instead. -/
theorem C9_status_mapping_counterexample :
    (SSCP_TransceiveNFC (fun _ => ((0 : Int), [0x00, 0x90])) [] 0).rc =
      SSCP_ERR_OUTPUT_BUFFER_OVERFLOW ∧
    ¬ (SSCP_TransceiveNFC (fun _ => ((0 : Int), [0x00, 0x90])) [] 0).rc =
        SSCP_SUCCESS := by
  decide

/-- C9 (amended): For every secure response delivered to
`SSCP_TransceiveNFC` with at least one data byte, the wrapper maps the first
response byte as follows: `0x00` returns `SSCP_SUCCESS` with the remaining
bytes copied out as the response APDU provided they fit the caller's buffer
(else `SSCP_ERR_OUTPUT_BUFFER_OVERFLOW`), `0x01` returns
`SSCP_ERR_NFC_CARD_MUTE_OR_REMOVED`, `0x02` returns
`SSCP_ERR_NFC_CARD_COMM_ERROR`, and any other value returns
`SSCP_ERR_UNSUPPORTED_RESPONSE_STATUS`. -/
theorem C9_status_mapping (exchange : List Nat → Int × List Nat)
    (commandApdu : List Nat) (maxResponseApduSz : Nat) (resp : List Nat)
    (hx : exchange (0x00 :: commandApdu.map (· % 256)) = (0, resp))
    (hlen : 1 ≤ resp.length) :
    ((resp.map (· % 256)).getD 0 0 = 0 →
      resp.length - 1 ≤ maxResponseApduSz →
      SSCP_TransceiveNFC exchange commandApdu maxResponseApduSz =
        ⟨SSCP_SUCCESS, (resp.map (· % 256)).drop 1,
         some (resp.length - 1)⟩) ∧
    ((resp.map (· % 256)).getD 0 0 = 0 →
      maxResponseApduSz < resp.length - 1 →
      (SSCP_TransceiveNFC exchange commandApdu maxResponseApduSz).rc =
        SSCP_ERR_OUTPUT_BUFFER_OVERFLOW) ∧
    ((resp.map (· % 256)).getD 0 0 = 1 →
      (SSCP_TransceiveNFC exchange commandApdu maxResponseApduSz).rc =
        SSCP_ERR_NFC_CARD_MUTE_OR_REMOVED) ∧
    ((resp.map (· % 256)).getD 0 0 = 2 →
      (SSCP_TransceiveNFC exchange commandApdu maxResponseApduSz).rc =
        SSCP_ERR_NFC_CARD_COMM_ERROR) ∧
    (∀ s, (resp.map (· % 256)).getD 0 0 = s → 3 ≤ s →
      (SSCP_TransceiveNFC exchange commandApdu maxResponseApduSz).rc =
        SSCP_ERR_UNSUPPORTED_RESPONSE_STATUS) := by
  have hE : SSCP_TransceiveNFC exchange commandApdu maxResponseApduSz =
      SSCP_TransceiveParse (resp.map (· % 256)) maxResponseApduSz := by
    simp only [SSCP_TransceiveNFC, hx, SSCP_TransceiveWithResult]
    simp
  have hml : (resp.map (· % 256)).length = resp.length := List.length_map _ _
  have hnl : ¬ ((resp.map (· % 256)).length < 1) := by
    rw [hml]
    omega
  have hnl2 : ¬ (resp.length < 1) := by omega
  rw [hE]
  unfold SSCP_TransceiveParse
  refine ⟨?_, ?_, ?_, ?_, ?_⟩
  · intro h0 hfit
    have hno : ¬ ((resp.map (· % 256)).length - 1 > maxResponseApduSz) := by
      rw [hml]
      omega
    have hno2 : ¬ (resp.length - 1 > maxResponseApduSz) := by omega
    simp only [hnl, hnl2, h0, hno, hno2, hml, if_false, ite_false]
  · intro h0 hover
    have hyes : (resp.map (· % 256)).length - 1 > maxResponseApduSz := by
      rw [hml]
      omega
    have hyes2 : resp.length - 1 > maxResponseApduSz := by omega
    simp only [hnl, hnl2, h0, hyes, hyes2, hml, if_false, ite_false,
      if_true, ite_true]
  · intro h1
    simp only [hnl, hnl2, hml, h1, if_false, ite_false]
  · intro h2
    simp only [hnl, hnl2, hml, h2, if_false, ite_false]
  · intro s hs h3
    obtain ⟨k, rfl⟩ : ∃ k, s = k + 3 := ⟨s - 3, by omega⟩
    simp only [hnl, hnl2, hml, hs, if_false, ite_false]

theorem C9_status_mapping_witness :
    (SSCP_TransceiveNFC (fun _ => ((0 : Int), [0x01])) [] 8).rc =
      SSCP_ERR_NFC_CARD_MUTE_OR_REMOVED :=
  (C9_status_mapping (fun _ => ((0 : Int), [0x01])) [] 8 [0x01] rfl
    (by decide)).2.2.1 (by decide)
